import Mathlib

/-!
# BlueCat Terraform provider: IPv4 network data source and resource

A shallow embedding of

* `bluecat/data_source_ip4_network-block-range.go` (the legacy data source),
* `internal/provider/data_source_ip4_network-block-range.go` (the current data source),
* `bluecat/resource_ip4_network.go` (the legacy resource),

followed by theorems about the property-string loop, the address accounting, the
global mutex and the CRUD callbacks.

Conventions of the embedding.

* Go strings are Lean strings; the separators `|`, `=` and `/` are single bytes, so
  `strings.Split` is modelled for a one-character separator.
* A Go function returning `(value, err)` is a Lean function returning a pair whose
  second component is `Option GoError` (`none` is `nil`); the value is the zero value
  when the error is set, as in Go.
* `int` is the 64-bit Go `int`; the numbers that occur are far below its bound and are
  kept as `Int`.
* The handlers run in the monad `M`: explicit state passing over the Terraform
  `ResourceData`, the global mutex and a trace of the observable events (mutex
  operations, remote calls, state writes, log lines).  A run either returns or stops
  with a runtime abort (index out of range, unlock of an unlocked mutex).
* The remote BlueCat server is an oracle `ProteusAPI`: the answer to a call is a
  function of the events so far and of the arguments of the call.
-/

set_option autoImplicit false

namespace Bluecat

/-! ## Go errors -/

/-- Go `error` values that occur in the handlers. -/
inductive GoError
  /-- The `*strconv.NumError` with `ErrSyntax` of the named strconv function. -/
  | syntaxError (fn input : String)
  /-- The `*strconv.NumError` with `ErrRange` of the named strconv function. -/
  | rangeError (fn input : String)
  /-- An error made by `fmt.Errorf` with a constant message. -/
  | errorf (msg : String)
  /-- An error reported by the remote API client. -/
  | remote (msg : String)
  /-- The error returned by `LogoutClientIfError`: its message and the error it was given. -/
  | wrapped (msg : String) (cause : GoError)
  deriving DecidableEq, Repr

/-! ## The parts of the Go standard library that the handlers use -/

namespace strings

/-- The pieces of a character sequence between the occurrences of `sep`:
`n` separators give `n + 1` pieces, so the result is never empty. -/
def splitChars (sep : Char) : List Char → List (List Char)
  | [] => [[]]
  | c :: cs =>
    if c = sep then [] :: splitChars sep cs
    else
      match splitChars sep cs with
      | [] => [[c]]
      | piece :: pieces => (c :: piece) :: pieces

/-- Go `strings.Split(s, sep)` for a separator of one byte. -/
def Split (s : String) (sep : Char) : List String :=
  (splitChars sep s.data).map String.mk

end strings

namespace strconv

/-- Go `strconv.ParseBool`: exactly twelve spellings are accepted. -/
def ParseBool (str : String) : Bool × Option GoError :=
  if str ∈ ["1", "t", "T", "true", "TRUE", "True"] then (true, none)
  else if str ∈ ["0", "f", "F", "false", "FALSE", "False"] then (false, none)
  else (false, some (.syntaxError "ParseBool" str))

/-- The value of a decimal digit. -/
def digitVal (c : Char) : Option Nat :=
  if '0' ≤ c ∧ c ≤ '9' then some (c.toNat - '0'.toNat) else none

/-- The number written by a sequence of decimal digits, read from the left onto `acc`. -/
def digitsFrom : Nat → List Char → Option Nat
  | acc, [] => some acc
  | acc, c :: cs =>
    match digitVal c with
    | some v => digitsFrom (acc * 10 + v) cs
    | none => none

/-- The number written by a non-empty sequence of decimal digits (leading zeros allowed);
`none` for the empty sequence and when a character is not a digit. -/
def decimalValue (cs : List Char) : Option Nat :=
  if cs = [] then none else digitsFrom 0 cs

/-- Go `strconv.ParseInt(s, 10, 64)`: an optional sign, then decimal digits; the value
has to fit a signed 64-bit integer. -/
def ParseInt (s : String) : Int × Option GoError :=
  let (neg, body) : Bool × List Char :=
    match s.data with
    | '+' :: cs => (false, cs)
    | '-' :: cs => (true, cs)
    | cs => (false, cs)
  match decimalValue body with
  | none => (0, some (.syntaxError "ParseInt" s))
  | some un =>
    if !neg && un ≥ 2 ^ 63 then (2 ^ 63 - 1, some (.rangeError "ParseInt" s))
    else if neg && un > 2 ^ 63 then (-(2 ^ 63), some (.rangeError "ParseInt" s))
    else (if neg then -(un : Int) else (un : Int), none)

/-- Go `strconv.FormatInt(i, 10)`. -/
def FormatInt (i : Int) : String :=
  match i with
  | .ofNat n => Nat.repr n
  | .negSucc n => "-" ++ Nat.repr (n + 1)

/-- A `float64` as far as the address accounting needs it. -/
inductive Float64
  /-- The `float64` whose value is exactly the natural number `n`, for `n < 2 ^ 53`. -/
  | exact (n : Nat)
  /-- The `float64` that `ParseFloat` returns for the literal `lit`, when that literal is
  not a plain sequence of decimal digits below `2 ^ 53`. -/
  | parsed (lit : String)
  deriving DecidableEq, Repr

/-- The behaviour of the Go floating point library outside of the plain digit strings:
which other literals `strconv.ParseFloat` accepts, and the value of
`int(math.Pow(2, 32 - x))` for the `float64` `x` read from such a literal. -/
structure FloatLib where
  accepts : String → Bool
  addressCount : String → Int

/-- The characters that can occur in a literal accepted by `strconv.ParseFloat`:
digits, sign, point, underscore, the exponent and hexadecimal letters, and the letters
of `inf`, `infinity` and `nan` in either case. -/
def floatAlphabet : List Char :=
  "0123456789+-._abcdefABCDEFxXpPiInNtTyY".data

/-- Go `strconv.ParseFloat(s, 64)`.  A non-empty sequence of decimal digits below
`2 ^ 53` is read exactly; the empty string and a string with a character outside
`floatAlphabet` are syntax errors; for the remaining strings `fl` decides. -/
def ParseFloat (fl : FloatLib) (s : String) : Float64 × Option GoError :=
  match decimalValue s.data with
  | some n =>
    if n < 2 ^ 53 then (.exact n, none)
    else if fl.accepts s then (.parsed s, none)
    else (.exact 0, some (.rangeError "ParseFloat" s))
  | none =>
    if s.data = [] ∨ ¬ (∀ c ∈ s.data, c ∈ floatAlphabet) then
      (.exact 0, some (.syntaxError "ParseFloat" s))
    else if fl.accepts s then (.parsed s, none)
    else (.exact 0, some (.syntaxError "ParseFloat" s))

end strconv

/-- Go `int(math.Pow(2, (32 - netmask)))`.  For an exact natural number `n` the
difference `32 - n` is an integer and `math.Pow` is exact: `2 ^ (32 - n)` when
`n ≤ 32`, and a value in `(0, 1)` (or `0`) that converts to `0` when `n > 32`. -/
def addressCount (fl : strconv.FloatLib) : strconv.Float64 → Int
  | .exact n => if n ≤ 32 then 2 ^ (32 - n) else 0
  | .parsed lit => fl.addressCount lit

/-! ## Terraform state, remote API and the handler monad -/

/-- A value stored in a Terraform state field. -/
inductive Value
  | str (s : String)
  | bool (b : Bool)
  | int (i : Int)
  | strs (l : List String)
  | strMap (m : List (String × String))
  deriving DecidableEq, Repr

/-- The gobam `APIEntity`; the pointer fields are taken to be non-nil. -/
structure APIEntity where
  Id : Int
  Name : String
  Type' : String
  Properties : String
  deriving DecidableEq, Repr

/-- A remote procedure call of the BlueCat API client, with its arguments. -/
inductive Call
  | GetIPRangedByIP (containerID : Int) (otype address : String)
  | GetEntities (parentID : Int) (otype : String) (start count : Int)
  | GetNextAvailableIP4Network (parentID size : Int) (isLargerAllowed autoCreate : Bool)
  | GetEntityById (id : Int)
  | Update (entity : APIEntity)
  | Delete (id : Int)
  | Logout
  deriving DecidableEq, Repr

/-- An observable step of a handler. -/
inductive Event
  /-- The statement `mutex.Lock()`. -/
  | lock
  /-- The statement `mutex.Unlock()`. -/
  | unlock
  /-- A remote call. -/
  | api (c : Call)
  /-- The statement `d.SetId(id)`. -/
  | setId (id : String)
  /-- The statement `d.Set(key, value)`. -/
  | set (key : String) (value : Value)
  /-- A line written by `log.Printf`. -/
  | log (line : String)
  deriving DecidableEq, Repr

/-- The Terraform `schema.ResourceData`: the resource ID and the fields written so far
(the most recent write first). -/
structure ResourceData where
  id : String
  fields : List (String × Value)
  deriving DecidableEq, Repr

namespace ResourceData

/-- The current value of a field, if it has one. -/
def lookup (d : ResourceData) (key : String) : Option Value :=
  (d.fields.find? (fun kv => kv.1 = key)).map (fun kv => kv.2)

/-- Go `d.Get(key).(string)`: the zero value when the field has no string value. -/
def getString (d : ResourceData) (key : String) : String :=
  match d.lookup key with
  | some (.str s) => s
  | _ => ""

/-- Go `d.Get(key).(int)`. -/
def getInt (d : ResourceData) (key : String) : Int :=
  match d.lookup key with
  | some (.int i) => i
  | _ => 0

/-- Go `d.Get(key).(bool)`. -/
def getBool (d : ResourceData) (key : String) : Bool :=
  match d.lookup key with
  | some (.bool b) => b
  | _ => false

/-- The effect of `d.Set(key, value)` on the data of a resource with the given schema
keys: a key outside the schema is refused (the handlers drop the error that `Set`
returns). -/
def write (schema : List String) (d : ResourceData) (key : String) (value : Value) :
    ResourceData :=
  if key ∈ schema then { d with fields := (key, value) :: d.fields } else d

end ResourceData

/-- The state a handler runs in. -/
structure State where
  d : ResourceData
  /-- Whether the global `mutex` is locked. -/
  held : Bool
  /-- The events so far, the oldest first. -/
  trace : List Event
  deriving DecidableEq, Repr

/-- The ways a run stops without returning. -/
inductive Abort
  /-- The runtime panic `index out of range [index] with length length`. -/
  | indexOutOfRange (index length : Nat)
  /-- The fatal error `sync: unlock of unlocked mutex`. -/
  | unlockOfUnlockedMutex
  /-- A `Lock` of the mutex while it is locked, which blocks. -/
  | blocked
  deriving DecidableEq, Repr

/-- The result of running a handler from a state. -/
inductive Result (α : Type)
  | ok (a : α) (s : State)
  | abort (k : Abort) (s : State)
  deriving DecidableEq, Repr

/-- The state in which a run ended. -/
def Result.state {α : Type} : Result α → State
  | .ok _ s => s
  | .abort _ s => s

/-- The handler monad. -/
def M (α : Type) : Type := State → Result α

namespace M

/-- Return a value without an effect. -/
def ret {α : Type} (a : α) : M α := fun s => .ok a s

/-- Sequencing: an abort of the first part ends the run. -/
def andThen {α β : Type} (m : M α) (f : α → M β) : M β := fun s =>
  match m s with
  | .ok a s' => f a s'
  | .abort k s' => .abort k s'

end M

instance : Monad M where
  pure := M.ret
  bind := M.andThen

/-- Append an event to the trace. -/
def emit (e : Event) : M Unit := fun s =>
  .ok () { s with trace := s.trace ++ [e] }

/-! The global `mutex` of the package. -/

namespace mutex

/-- Go `mutex.Lock()`. -/
def Lock : M Unit := fun s =>
  if s.held then .abort .blocked { s with trace := s.trace ++ [.lock] }
  else .ok () { s with held := true, trace := s.trace ++ [.lock] }

/-- Go `mutex.Unlock()`: unlocking a mutex that is not locked is a fatal error. -/
def Unlock : M Unit := fun s =>
  if s.held then .ok () { s with held := false, trace := s.trace ++ [.unlock] }
  else .abort .unlockOfUnlockedMutex { s with trace := s.trace ++ [.unlock] }

end mutex

/-- Go `xs[i]` on a slice. -/
def index {α : Type} (xs : List α) (i : Nat) : M α := fun s =>
  match xs.get? i with
  | some x => .ok x s
  | none => .abort (.indexOutOfRange i xs.length) s

/-- Go `d.SetId(id)`. -/
def SetId (id : String) : M Unit := fun s =>
  .ok () { s with d := { s.d with id := id }, trace := s.trace ++ [.setId id] }

/-- Go `d.Set(key, value)` on a resource with the given schema keys, the returned error
dropped. -/
def Set (schema : List String) (key : String) (value : Value) : M Unit := fun s =>
  .ok () { s with d := s.d.write schema key value, trace := s.trace ++ [.set key value] }

/-- Read the `ResourceData`. -/
def getData : M ResourceData := fun s => .ok s.d s

/-- Go `log.Printf`, with the formatted line. -/
def logPrintf (line : String) : M Unit := emit (.log line)

/-- The remote server behind the gobam `ProteusAPI` client: the answer to each call,
given the events so far. -/
structure ProteusAPI where
  onGetIPRangedByIP : List Event → Int → String → String → APIEntity × Option GoError
  onGetEntities : List Event → Int → String → Int → Int → List APIEntity × Option GoError
  onGetNextAvailableIP4Network : List Event → Int → Int → Bool → Bool → Int × Option GoError
  onGetEntityById : List Event → Int → APIEntity × Option GoError
  onUpdate : List Event → APIEntity → Option GoError
  onDelete : List Event → Int → Option GoError
  onLogout : List Event → Option GoError

namespace ProteusAPI

/-- Go `client.GetIPRangedByIP(containerID, otype, address)`. -/
def GetIPRangedByIP (client : ProteusAPI) (containerID : Int) (otype address : String) :
    M (APIEntity × Option GoError) := fun s =>
  .ok (client.onGetIPRangedByIP s.trace containerID otype address)
    { s with trace := s.trace ++ [.api (.GetIPRangedByIP containerID otype address)] }

/-- Go `client.GetEntities(parentID, otype, start, count)`; the value is `resp.Item`. -/
def GetEntities (client : ProteusAPI) (parentID : Int) (otype : String) (start count : Int) :
    M (List APIEntity × Option GoError) := fun s =>
  .ok (client.onGetEntities s.trace parentID otype start count)
    { s with trace := s.trace ++ [.api (.GetEntities parentID otype start count)] }

/-- Go `client.GetNextAvailableIP4Network(parentID, size, isLargerAllowed, autoCreate)`. -/
def GetNextAvailableIP4Network (client : ProteusAPI) (parentID size : Int)
    (isLargerAllowed autoCreate : Bool) : M (Int × Option GoError) := fun s =>
  .ok (client.onGetNextAvailableIP4Network s.trace parentID size isLargerAllowed autoCreate)
    { s with trace := s.trace ++
        [.api (.GetNextAvailableIP4Network parentID size isLargerAllowed autoCreate)] }

/-- Go `client.GetEntityById(id)`. -/
def GetEntityById (client : ProteusAPI) (id : Int) : M (APIEntity × Option GoError) := fun s =>
  .ok (client.onGetEntityById s.trace id)
    { s with trace := s.trace ++ [.api (.GetEntityById id)] }

/-- Go `client.Update(&entity)`. -/
def Update (client : ProteusAPI) (entity : APIEntity) : M (Option GoError) := fun s =>
  .ok (client.onUpdate s.trace entity) { s with trace := s.trace ++ [.api (.Update entity)] }

/-- Go `client.Delete(id)`. -/
def Delete (client : ProteusAPI) (id : Int) : M (Option GoError) := fun s =>
  .ok (client.onDelete s.trace id) { s with trace := s.trace ++ [.api (.Delete id)] }

/-- Go `client.Logout()`. -/
def Logout (client : ProteusAPI) : M (Option GoError) := fun s =>
  .ok (client.onLogout s.trace) { s with trace := s.trace ++ [.api .Logout] }

end ProteusAPI

/-- The gobam function `LogoutClientIfError(client, err, msg)`: with a nil `err` it does
nothing and returns nil; with an error it logs the client out and returns an error that
carries `msg`. -/
def LogoutClientIfError (client : ProteusAPI) (err : Option GoError) (msg : String) :
    M (Option GoError) :=
  match err with
  | none => pure none
  | some e => do
    let _ ← client.Logout
    pure (some (.wrapped msg e))

/-! ## Package `bluecat`: the legacy data source -/

namespace Legacy

/-- The provider configuration of package `bluecat`, as far as the handlers use it: the
result of `meta.(*Config).Client()`, a client or an error, given the events so far. -/
structure Config where
  Client : List Event → Except GoError ProteusAPI

/-- Go `meta.(*Config).Client()`. -/
def getClient (configuration : Config) : M (Except GoError ProteusAPI) := fun s =>
  .ok (configuration.Client s.trace) s

/-- The keys of the schema of `dataSourceIP4Network`. -/
def dataSourceIP4Network : List String :=
  ["container_id", "type", "address", "name", "properties", "cidr", "allow_duplicate_host",
   "inherit_allow_duplicate_host", "ping_before_assign", "inherit_ping_before_assign",
   "reference", "gateway", "inherit_default_domains", "default_view", "inherit_default_view",
   "inherit_dns_restrictions", "addresses_in_use", "addresses_free"]

/-- The shape shared by the five boolean cases of the `switch`: parse `val` with
`strconv.ParseBool`; on an error log out, unlock and return the error, otherwise set
the field.  The result `some err` means that the handler returns `err`, and `none` that
the loop goes on. -/
def boolCase (client : ProteusAPI) (msg field val : String) : M (Option GoError) := do
  let parsed := strconv.ParseBool val
  let b := parsed.1
  let err ← LogoutClientIfError client parsed.2 msg
  match err with
  | some e => do
    mutex.Unlock
    pure (some e)
  | none => do
    Set dataSourceIP4Network field (.bool b)
    pure none

/-- The `case "CIDR"` of the `switch`. -/
def cidrCase (fl : strconv.FloatLib) (client : ProteusAPI) (resp : APIEntity) (val : String) :
    M (Option GoError) := do
  let mask ← index (strings.Split val '/') 1
  let parsed := strconv.ParseFloat fl mask
  let netmask := parsed.1
  let err ← LogoutClientIfError client parsed.2 "Failed to get IP4 Network netmask"
  match err with
  | some e => do
    mutex.Unlock
    pure (some e)
  | none => do
    let addressCount := addressCount fl netmask
    let got ← client.GetEntities resp.Id "IP4Address" 0 addressCount
    let err ← LogoutClientIfError client got.2 "Failed to get child IP4 Addresses"
    match err with
    | some e => do
      mutex.Unlock
      pure (some e)
    | none => do
      let addressesInUse : Int := got.1.length
      let addressesFree := addressCount - addressesInUse
      Set dataSourceIP4Network "addresses_in_use" (.int addressesInUse)
      Set dataSourceIP4Network "addresses_free" (.int addressesFree)
      Set dataSourceIP4Network "cidr" (.str val)
      pure none

/-- The statement `switch prop { ... }` of the loop body, for the key `prop` and the
value `val` of a segment.  The result `some err` means that the handler returns `err`
from inside the loop, and `none` that the loop goes on. -/
def propertySwitch (fl : strconv.FloatLib) (client : ProteusAPI) (resp : APIEntity)
    (prop val : String) : M (Option GoError) :=
  if prop = "CIDR" then cidrCase fl client resp val
  else if prop = "allowDuplicateHost" then do
    Set dataSourceIP4Network "allow_duplicate_host" (.str val)
    pure none
  else if prop = "inheritAllowDuplicateHost" then
    boolCase client "Unable to parse inheritAllowDuplicateHost to bool"
      "inherit_allow_duplicate_host" val
  else if prop = "pingBeforeAssign" then do
    Set dataSourceIP4Network "ping_before_assign" (.str val)
    pure none
  else if prop = "inheritPingBeforeAssign" then
    boolCase client "Unable to parse inheritPingBeforeAssign to bool"
      "inherit_ping_before_assign" val
  else if prop = "reference" then do
    Set dataSourceIP4Network "reference" (.str val)
    pure none
  else if prop = "gateway" then do
    Set dataSourceIP4Network "gateway" (.str val)
    pure none
  else if prop = "inheritDefaultDomains" then
    boolCase client "Unable to parse inheritDefaultDomains to bool"
      "inherit_default_domains" val
  else if prop = "defaultView" then do
    Set dataSourceIP4Network "default_view" (.str val)
    pure none
  else if prop = "inheritDefaultView" then
    boolCase client "Unable to parse inheritDefaultView to bool"
      "inherit_default_view" val
  else if prop = "inheritDNSRestrictions" then
    boolCase client "Unable to parse inheritDNSRestrictions to bool"
      "inherit_dns_restrictions" val
  else do
    logPrintf ("[WARN] Unknown IP4 Address Property: " ++ prop)
    pure none

/-- The body of the loop `for x := range props` for the segment `props[x]`: an empty
segment is skipped; otherwise the key and the value are the pieces 0 and 1 of the
segment split at `=`. -/
def loopBody (fl : strconv.FloatLib) (client : ProteusAPI) (resp : APIEntity) (seg : String) :
    M (Option GoError) :=
  if seg.length > 0 then do
    let prop ← index (strings.Split seg '=') 0
    let val ← index (strings.Split seg '=') 1
    propertySwitch fl client resp prop val
  else pure none

/-- The loop `for x := range props` of `dataSourceIP4NetworkRead`. -/
def propertyLoop (fl : strconv.FloatLib) (client : ProteusAPI) (resp : APIEntity) :
    List String → M (Option GoError)
  | [] => pure none
  | seg :: rest => do
    let returned ← loopBody fl client resp seg
    match returned with
    | some e => pure (some e)
    | none => propertyLoop fl client resp rest

/-- The handler `dataSourceIP4NetworkRead` of package `bluecat`. -/
def dataSourceIP4NetworkRead (fl : strconv.FloatLib) (configuration : Config) :
    M (Option GoError) := do
  mutex.Lock
  let made ← getClient configuration
  match made with
  | .error err => do
    mutex.Unlock
    pure (some err)
  | .ok client => do
    let d ← getData
    let parsed := strconv.ParseInt (d.getString "container_id")
    let containerID := parsed.1
    let err ← LogoutClientIfError client parsed.2
      "Unable to convert container_id from string to int64"
    match err with
    | some e => do
      mutex.Unlock
      pure (some e)
    | none => do
      let otype := d.getString "type"
      let address := d.getString "address"
      let got ← client.GetIPRangedByIP containerID otype address
      let resp := got.1
      let err ← LogoutClientIfError client got.2 "Failed to get IP4 Networks by hint"
      match err with
      | some e => do
        mutex.Unlock
        pure (some e)
      | none => do
        SetId (strconv.FormatInt resp.Id)
        Set dataSourceIP4Network "name" (.str resp.Name)
        Set dataSourceIP4Network "properties" (.str resp.Properties)
        Set dataSourceIP4Network "type" (.str resp.Type')
        let props := strings.Split resp.Properties '|'
        let returned ← propertyLoop fl client resp props
        match returned with
        | some e => pure (some e)
        | none => do
          let err ← client.Logout
          match err with
          | some e => do
            mutex.Unlock
            pure (some e)
          | none => do
            logPrintf "[INFO] BlueCat Logout was successful"
            mutex.Unlock
            pure none

/-! ## Package `bluecat`: the resource -/

/-- The keys of the schema of `resourceIP4Network`. -/
def resourceIP4Network : List String :=
  ["parent_id", "name", "size", "is_larger_allowed", "properties", "type", "cidr",
   "allow_duplicate_host", "inherit_allow_duplicate_host", "ping_before_assign",
   "inherit_ping_before_assign", "gateway", "inherit_default_domains", "default_view",
   "inherit_default_view", "inherit_dns_restrictions", "addresses_in_use", "addresses_free"]

/-- The fields of the value of `parseIP4NetworkProperties` that `resourceIP4NetworkRead`
reads, with the types of the schema fields they are written to. -/
structure ip4NetworkProperties where
  cidr : String
  allowDuplicateHost : String
  inheritAllowDuplicateHost : Bool
  inheritPingBeforeAssign : Bool
  pingBeforeAssign : String
  gateway : String
  inheritDefaultDomains : Bool
  defaultView : String
  inheritDefaultView : Bool
  inheritDNSRestrictions : Bool
  customProperties : List (String × String)
  deriving DecidableEq, Repr

/-- The two functions of package `bluecat` that `resourceIP4NetworkRead` calls and that
are defined in other files of the package: `parseIP4NetworkProperties` and
`getIP4NetworkAddressUsage`. -/
structure Helpers where
  parseIP4NetworkProperties : String → ip4NetworkProperties × Option GoError
  getIP4NetworkAddressUsage : Int → String → ProteusAPI → M (Int × Int × Option GoError)

/-- The handler `resourceIP4NetworkRead`. -/
def resourceIP4NetworkRead (h : Helpers) (configuration : Config) : M (Option GoError) := do
  mutex.Lock
  let made ← getClient configuration
  match made with
  | .error err => do
    mutex.Unlock
    pure (some err)
  | .ok client => do
    let d ← getData
    let parsed := strconv.ParseInt d.id
    let id := parsed.1
    let err ← LogoutClientIfError client parsed.2 "Unable to convert id from string to int64"
    match err with
    | some e => do
      mutex.Unlock
      pure (some e)
    | none => do
      let got ← client.GetEntityById id
      let resp := got.1
      let err ← LogoutClientIfError client got.2 "Failed to get IP4 Address by Id"
      match err with
      | some e => do
        mutex.Unlock
        pure (some e)
      | none =>
        if resp.Id = 0 then do
          SetId ""
          let err ← client.Logout
          match err with
          | some e => do
            mutex.Unlock
            pure (some e)
          | none => do
            mutex.Unlock
            pure none
        else do
          Set resourceIP4Network "name" (.str resp.Name)
          Set resourceIP4Network "properties" (.str resp.Properties)
          Set resourceIP4Network "type" (.str resp.Type')
          let parsedProps := h.parseIP4NetworkProperties resp.Properties
          let networkProperties := parsedProps.1
          let err ← LogoutClientIfError client parsedProps.2
            "Error parsing IPv4 network properties"
          match err with
          | some e => do
            mutex.Unlock
            pure (some e)
          | none => do
            Set resourceIP4Network "cidr" (.str networkProperties.cidr)
            Set resourceIP4Network "allow_duplicate_host"
              (.str networkProperties.allowDuplicateHost)
            Set resourceIP4Network "inherit_allow_duplicate_host"
              (.bool networkProperties.inheritAllowDuplicateHost)
            Set resourceIP4Network "inherit_ping_before_assign"
              (.bool networkProperties.inheritPingBeforeAssign)
            Set resourceIP4Network "ping_before_assign" (.str networkProperties.pingBeforeAssign)
            Set resourceIP4Network "gateway" (.str networkProperties.gateway)
            Set resourceIP4Network "inherit_default_domains"
              (.bool networkProperties.inheritDefaultDomains)
            Set resourceIP4Network "default_view" (.str networkProperties.defaultView)
            Set resourceIP4Network "inherit_default_view"
              (.bool networkProperties.inheritDefaultView)
            Set resourceIP4Network "inherit_dns_restrictions"
              (.bool networkProperties.inheritDNSRestrictions)
            Set resourceIP4Network "custom_properties"
              (.strMap networkProperties.customProperties)
            let usage ← h.getIP4NetworkAddressUsage resp.Id networkProperties.cidr client
            let addressesInUse := usage.1
            let addressesFree := usage.2.1
            let err ← LogoutClientIfError client usage.2.2 "Error calculating network usage"
            match err with
            | some e => do
              mutex.Unlock
              pure (some e)
            | none => do
              Set resourceIP4Network "addresses_in_use" (.int addressesInUse)
              Set resourceIP4Network "addresses_free" (.int addressesFree)
              let err ← client.Logout
              match err with
              | some e => do
                mutex.Unlock
                pure (some e)
              | none => do
                logPrintf "[INFO] BlueCat Logout was successful"
                mutex.Unlock
                pure none

/-- The handler `resourceIP4NetworkCreate`. -/
def resourceIP4NetworkCreate (h : Helpers) (configuration : Config) : M (Option GoError) := do
  mutex.Lock
  let made ← getClient configuration
  match made with
  | .error err => do
    mutex.Unlock
    pure (some err)
  | .ok client => do
    let d ← getData
    let parsed := strconv.ParseInt (d.getString "parent_id")
    let parentID := parsed.1
    let err ← LogoutClientIfError client parsed.2
      "Unable to convert parent_id from string to int64"
    match err with
    | some e => do
      mutex.Unlock
      pure (some e)
    | none => do
      let size := d.getInt "size"
      let isLargerAllowed := d.getBool "is_larger_allowed"
      let autoCreate := true
      let got ← client.GetNextAvailableIP4Network parentID size isLargerAllowed autoCreate
      let resp := got.1
      let err ← LogoutClientIfError client got.2 "Failed on GetNextAvailableIP4Network"
      match err with
      | some e => do
        mutex.Unlock
        pure (some e)
      | none => do
        SetId (strconv.FormatInt resp)
        let id := resp
        let name := d.getString "name"
        let properties := ""
        let otype := "IP4Network"
        let setName : APIEntity :=
          { Id := id, Name := name, Properties := properties, Type' := otype }
        let _ ← client.Update setName
        let err ← LogoutClientIfError client err "IP4 Network Update failed"
        match err with
        | some e => do
          mutex.Unlock
          pure (some e)
        | none => do
          let err ← client.Logout
          match err with
          | some e => do
            mutex.Unlock
            pure (some e)
          | none => do
            logPrintf "[INFO] BlueCat Logout was successful"
            mutex.Unlock
            resourceIP4NetworkRead h configuration

/-- The handler `resourceIP4NetworkUpdate`. -/
def resourceIP4NetworkUpdate (h : Helpers) (configuration : Config) : M (Option GoError) := do
  mutex.Lock
  let made ← getClient configuration
  match made with
  | .error err => do
    mutex.Unlock
    pure (some err)
  | .ok client => do
    let d ← getData
    let parsed := strconv.ParseInt d.id
    let id := parsed.1
    let err ← LogoutClientIfError client parsed.2 "Unable to convert id from string to int64"
    match err with
    | some e => do
      mutex.Unlock
      pure (some e)
    | none => do
      let name := d.getString "name"
      let properties := ""
      let otype := "IP4Network"
      let update : APIEntity :=
        { Id := id, Name := name, Properties := properties, Type' := otype }
      let _ ← client.Update update
      let err ← LogoutClientIfError client err "IP4 Network Update failed"
      match err with
      | some e => do
        mutex.Unlock
        pure (some e)
      | none => do
        let err ← client.Logout
        match err with
        | some e => do
          mutex.Unlock
          pure (some e)
        | none => do
          logPrintf "[INFO] BlueCat Logout was successful"
          mutex.Unlock
          resourceIP4NetworkRead h configuration

end Legacy

/-! ## Package `internal/provider`: the data source -/

namespace Provider

/-- The provider's `apiClient`: the handlers read its field `Client`. -/
structure apiClient where
  Client : ProteusAPI

/-- The fields of the gobam `IP4NetworkProperties` that the handler reads, with the
types of the schema fields they are written to. -/
structure IP4NetworkProperties where
  CIDR : String
  Template : String
  Gateway : String
  DefaultDomains : List String
  DefaultView : String
  DNSRestrictions : List String
  AllowDuplicateHost : String
  PingBeforeAssign : String
  InheritAllowDuplicateHost : Bool
  InheritPingBeforeAssign : Bool
  InheritDNSRestrictions : Bool
  InheritDefaultDomains : Bool
  InheritDefaultView : Bool
  LocationCode : String
  LocationInherited : Bool
  CustomProperties : List (String × String)
  deriving DecidableEq, Repr

/-- The gobam library function `ParseIP4NetworkProperties`, whose source is outside the
repository. -/
structure Gobam where
  ParseIP4NetworkProperties : String → IP4NetworkProperties × Option GoError

/-- The keys of the schema of `dataSourceIP4Network`. -/
def dataSourceIP4Network : List String :=
  ["container_id", "type", "address", "name", "properties", "cidr", "template", "gateway",
   "default_domains", "default_view", "dns_restrictions", "allow_duplicate_host",
   "ping_before_assign", "inherit_allow_duplicate_host", "inherit_ping_before_assign",
   "inherit_dns_restrictions", "inherit_default_domains", "inherit_default_view",
   "location_code", "location_inherited", "addresses_in_use", "addresses_free",
   "custom_properties"]

/-- The function `getIP4NetworkAddressUsage`. -/
def getIP4NetworkAddressUsage (fl : strconv.FloatLib) (id : Int) (cidr : String)
    (client : ProteusAPI) : M (Int × Int × Option GoError) := do
  let mask ← index (strings.Split cidr '/') 1
  let parsed := strconv.ParseFloat fl mask
  let netmask := parsed.1
  match parsed.2 with
  | some _ => do
    mutex.Unlock
    pure (0, 0, some (.errorf "error parsing netmask from cidr string"))
  | none => do
    let addressCount := addressCount fl netmask
    let got ← client.GetEntities id "IP4Address" 0 addressCount
    match got.2 with
    | some err => pure (0, 0, some err)
    | none => do
      let addressesInUse : Int := got.1.length
      let addressesFree := addressCount - addressesInUse
      pure (addressesInUse, addressesFree, none)

/-- The handler `dataSourceIP4NetworkRead` of package `internal/provider`; the value is
the error that `diag.FromErr` wraps, `none` for the nil diagnostics. -/
def dataSourceIP4NetworkRead (fl : strconv.FloatLib) (gobam : Gobam) (configuration : apiClient) :
    M (Option GoError) := do
  mutex.Lock
  let client := configuration.Client
  let d ← getData
  let parsed := strconv.ParseInt (d.getString "container_id")
  let containerID := parsed.1
  let err ← LogoutClientIfError client parsed.2
    "Unable to convert container_id from string to int64"
  match err with
  | some e => do
    mutex.Unlock
    pure (some e)
  | none => do
    let otype := d.getString "type"
    let address := d.getString "address"
    let got ← client.GetIPRangedByIP containerID otype address
    let resp := got.1
    let err ← LogoutClientIfError client got.2 "Failed to get IP4 Networks by hint"
    match err with
    | some e => do
      mutex.Unlock
      pure (some e)
    | none => do
      SetId (strconv.FormatInt resp.Id)
      Set dataSourceIP4Network "name" (.str resp.Name)
      Set dataSourceIP4Network "properties" (.str resp.Properties)
      Set dataSourceIP4Network "type" (.str resp.Type')
      let parsedProps := gobam.ParseIP4NetworkProperties resp.Properties
      let networkProperties := parsedProps.1
      let err ← LogoutClientIfError client parsedProps.2 "Error parsing host record properties"
      match err with
      | some e => do
        mutex.Unlock
        pure (some e)
      | none => do
        Set dataSourceIP4Network "cidr" (.str networkProperties.CIDR)
        Set dataSourceIP4Network "template" (.str networkProperties.Template)
        Set dataSourceIP4Network "gateway" (.str networkProperties.Gateway)
        Set dataSourceIP4Network "default_domains" (.strs networkProperties.DefaultDomains)
        Set dataSourceIP4Network "default_view" (.str networkProperties.DefaultView)
        Set dataSourceIP4Network "dns_restrictions" (.strs networkProperties.DefaultDomains)
        Set dataSourceIP4Network "allow_duplicate_host"
          (.str networkProperties.AllowDuplicateHost)
        Set dataSourceIP4Network "ping_before_assign" (.str networkProperties.PingBeforeAssign)
        Set dataSourceIP4Network "inherit_allow_duplicate_host"
          (.bool networkProperties.InheritAllowDuplicateHost)
        Set dataSourceIP4Network "inherit_ping_before_assign"
          (.bool networkProperties.InheritPingBeforeAssign)
        Set dataSourceIP4Network "inherit_dns_restrictions"
          (.bool networkProperties.InheritDNSRestrictions)
        Set dataSourceIP4Network "inherit_default_domains"
          (.bool networkProperties.InheritDefaultDomains)
        Set dataSourceIP4Network "inherit_default_view"
          (.bool networkProperties.InheritDefaultView)
        Set dataSourceIP4Network "location_code" (.str networkProperties.LocationCode)
        Set dataSourceIP4Network "location_inherited"
          (.bool networkProperties.LocationInherited)
        Set dataSourceIP4Network "custom_properties"
          (.strMap networkProperties.CustomProperties)
        let usage ← getIP4NetworkAddressUsage fl resp.Id networkProperties.CIDR client
        let addressesInUse := usage.1
        let addressesFree := usage.2.1
        let err ← LogoutClientIfError client usage.2.2 "Error calculating network usage"
        match err with
        | some e => do
          mutex.Unlock
          pure (some e)
        | none => do
          Set dataSourceIP4Network "addresses_in_use" (.int addressesInUse)
          Set dataSourceIP4Network "addresses_free" (.int addressesFree)
          let err ← client.Logout
          match err with
          | some e => do
            mutex.Unlock
            pure (some e)
          | none => do
            logPrintf "[INFO] BlueCat Logout was successful"
            mutex.Unlock
            pure none

end Provider

/-! ## The vocabulary of the property-string format -/

namespace Legacy

/-- The eleven keys that the `switch` of the legacy loop has a case for. -/
def knownKeys : List String :=
  ["CIDR", "allowDuplicateHost", "inheritAllowDuplicateHost", "pingBeforeAssign",
   "inheritPingBeforeAssign", "reference", "gateway", "inheritDefaultDomains", "defaultView",
   "inheritDefaultView", "inheritDNSRestrictions"]

/-- The five boolean-valued keys, each with the state field it is written to. -/
def boolKeys : List (String × String) :=
  [("inheritAllowDuplicateHost", "inherit_allow_duplicate_host"),
   ("inheritPingBeforeAssign", "inherit_ping_before_assign"),
   ("inheritDefaultDomains", "inherit_default_domains"),
   ("inheritDefaultView", "inherit_default_view"),
   ("inheritDNSRestrictions", "inherit_dns_restrictions")]

/-- The five string-valued keys, each with the state field it is written to. -/
def stringKeys : List (String × String) :=
  [("allowDuplicateHost", "allow_duplicate_host"),
   ("pingBeforeAssign", "ping_before_assign"),
   ("reference", "reference"),
   ("gateway", "gateway"),
   ("defaultView", "default_view")]

/-- The state in which the property loop of `dataSourceIP4NetworkRead` starts, when the
handler was entered in the state `s`, the container id parsed as `containerID` and
`GetIPRangedByIP` answered with `resp`: the mutex is held, the ID and the fields `name`,
`properties` and `type` are set. -/
def stateBeforeLoop (s : State) (containerID : Int) (resp : APIEntity) : State :=
  { d := ((({ s.d with id := strconv.FormatInt resp.Id }).write dataSourceIP4Network "name"
        (.str resp.Name)).write dataSourceIP4Network "properties"
        (.str resp.Properties)).write dataSourceIP4Network "type" (.str resp.Type'),
    held := true,
    trace := s.trace ++ [.lock,
      .api (.GetIPRangedByIP containerID (s.d.getString "type") (s.d.getString "address")),
      .setId (strconv.FormatInt resp.Id), .set "name" (.str resp.Name),
      .set "properties" (.str resp.Properties), .set "type" (.str resp.Type')] }

/-- Whether a segment between `|` has the format of the spec: it is empty, or it holds
a `=` and, when its key (the piece before the first `=`) is `CIDR`, its value (the next
piece) holds a `/`. -/
def segmentFormat (seg : String) : Bool :=
  decide (seg.length = 0) ||
    (decide ('=' ∈ seg.data) &&
      match strings.Split seg '=' with
      | prop :: val :: _ => decide (prop = "CIDR" → '/' ∈ val.data)
      | _ => true)

/-- The format of a property string under which the loop is meant to run: every segment
between `|` has the format `segmentFormat`. -/
def propertyFormat (properties : String) : Bool :=
  (strings.Split properties '|').all segmentFormat

end Legacy

/-- A run that does not stop on an index out of range. -/
def Result.indexSafe {α : Type} (r : Result α) : Prop :=
  ∀ (i n : Nat) (s : State), r ≠ .abort (.indexOutOfRange i n) s

/-- An action none of whose runs stops on an index out of range. -/
def M.indexSafe {α : Type} (m : M α) : Prop := ∀ s, (m s).indexSafe

/-- Whether an event is a call of `GetNextAvailableIP4Network`. -/
def isGetNextAvailableIP4Network : Event → Bool
  | .api (.GetNextAvailableIP4Network _ _ _ _) => true
  | _ => false

/-- An action that never calls `GetNextAvailableIP4Network`: every run only appends events
to the trace, none of them such a call. -/
def M.noCreate {α : Type} (m : M α) : Prop :=
  ∀ s, ∃ added, (m s).state.trace = s.trace ++ added ∧
    added.filter isGetNextAvailableIP4Network = []

/-! ## Sample data for the concrete instances -/

/-- A state inside a handler: the mutex is locked and nothing else has happened. -/
def sampleState : State :=
  { d := { id := "7", fields := [] }, held := true, trace := [.lock] }

/-- A floating point library that accepts no literal besides the plain digit strings. -/
def sampleFloatLib : strconv.FloatLib :=
  { accepts := fun _ => false, addressCount := fun _ => 0 }

/-- The network entity that the sample server holds. -/
def sampleNetwork : APIEntity :=
  { Id := 7, Name := "lab", Type' := "IP4Network",
    Properties := "CIDR=10.0.0.0/24|allowDuplicateHost=disable|inheritDefaultView=true|" }

/-- A server that answers every call without an error: it holds `sampleNetwork` with two
addresses in use. -/
def sampleClient : ProteusAPI :=
  { onGetIPRangedByIP := fun _ _ _ _ => (sampleNetwork, none)
    onGetEntities := fun _ _ _ _ _ =>
      ([⟨8, "10.0.0.1", "IP4Address", ""⟩, ⟨9, "10.0.0.2", "IP4Address", ""⟩], none)
    onGetNextAvailableIP4Network := fun _ _ _ _ _ => (7, none)
    onGetEntityById := fun _ _ => (sampleNetwork, none)
    onUpdate := fun _ _ => none
    onDelete := fun _ _ => none
    onLogout := fun _ => none }

/-- The state in which Terraform calls a handler of the data source: the mutex is free,
nothing is in the trace and the configuration names the container, type and address. -/
def dataSourceEntry : State :=
  { d := { id := "", fields := [("container_id", .str "5"), ("type", .str "IP4Network"),
        ("address", .str "10.0.0.1")] },
    held := false, trace := [] }

/-- The state in which Terraform calls `resourceIP4NetworkCreate`: the mutex is free and the
configuration asks for a network of 256 addresses under the parent 5. -/
def resourceEntry : State :=
  { d := { id := "", fields := [("parent_id", .str "5"), ("name", .str "lab"),
        ("size", .int 256), ("is_larger_allowed", .bool false)] },
    held := false, trace := [] }

/-- The state in which Terraform calls `resourceIP4NetworkUpdate` for the network 7. -/
def resourceUpdateEntry : State :=
  { d := { id := "7", fields := [("parent_id", .str "5"), ("name", .str "lab2"),
        ("size", .int 256), ("is_larger_allowed", .bool false)] },
    held := false, trace := [] }

/-- The sample server, except that it refuses every `Update`. -/
def updateRefusingClient : ProteusAPI :=
  { sampleClient with onUpdate := fun _ _ => some (.remote "update refused") }

namespace Provider

/-- A `ParseIP4NetworkProperties` that reads every property string as a network with the
given cidr, the default domain `example.com` and the DNS restriction
`restricted.example`. -/
def sampleGobam (cidr : String) : Gobam :=
  { ParseIP4NetworkProperties := fun _ =>
      ({ CIDR := cidr, Template := "", Gateway := "10.0.0.1",
         DefaultDomains := ["example.com"], DefaultView := "default",
         DNSRestrictions := ["restricted.example"], AllowDuplicateHost := "disable",
         PingBeforeAssign := "disable", InheritAllowDuplicateHost := true,
         InheritPingBeforeAssign := true, InheritDNSRestrictions := false,
         InheritDefaultDomains := false, InheritDefaultView := true, LocationCode := "",
         LocationInherited := false, CustomProperties := [] }, none) }

end Provider

namespace Legacy

/-- An instance of the two helper functions: every property string is read as the
network `10.0.0.0/24`, and the address usage is computed as in package
`internal/provider`. -/
def sampleHelpers : Helpers :=
  { parseIP4NetworkProperties := fun _ =>
      ({ cidr := "10.0.0.0/24", allowDuplicateHost := "disable",
         inheritAllowDuplicateHost := true, inheritPingBeforeAssign := true,
         pingBeforeAssign := "disable", gateway := "10.0.0.1", inheritDefaultDomains := false,
         defaultView := "default", inheritDefaultView := true,
         inheritDNSRestrictions := false, customProperties := [] }, none)
    getIP4NetworkAddressUsage := Provider.getIP4NetworkAddressUsage sampleFloatLib }

end Legacy

/-- The sample server, except that the network it holds has the property string
`inheritDefaultView=true=x|`. -/
def equalsInValueClient : ProteusAPI :=
  { sampleClient with
    onGetIPRangedByIP := fun _ _ _ _ =>
      ({ sampleNetwork with Properties := "inheritDefaultView=true=x|" }, none) }

/-- The sample server, except that the network it holds has the property string
`inheritDefaultView=maybe|`. -/
def badBooleanClient : ProteusAPI :=
  { sampleClient with
    onGetIPRangedByIP := fun _ _ _ _ =>
      ({ sampleNetwork with Properties := "inheritDefaultView=maybe|" }, none) }

/-- The sample server after the network 7 has been removed: `GetEntityById` answers
without an error with the empty entity, whose id is 0. -/
def vanishedClient : ProteusAPI :=
  { sampleClient with
    onGetEntityById := fun _ _ => ({ Id := 0, Name := "", Type' := "", Properties := "" }, none) }

/-- The server `vanishedClient`, except that its `Logout` fails. -/
def vanishedLogoutFailingClient : ProteusAPI :=
  { vanishedClient with onLogout := fun _ => some (.remote "logout failed") }

/-- The state in which Terraform calls `resourceIP4NetworkRead` for the network 7, whose
fields were read earlier: the mutex is free. -/
def resourceReadEntry : State :=
  { d := { id := "7", fields := [("addresses_free", .int 254), ("addresses_in_use", .int 2),
        ("cidr", .str "10.0.0.0/24"), ("type", .str "IP4Network"), ("name", .str "lab"),
        ("parent_id", .str "5"), ("size", .int 256)] },
    held := false, trace := [] }

/-! ## Basic facts about the embedding -/

@[simp] theorem run_pure {α : Type} (a : α) (s : State) : (pure a : M α) s = .ok a s := rfl

@[simp] theorem run_bind {α β : Type} (m : M α) (f : α → M β) (s : State) :
    (m >>= f) s =
      match m s with
      | .ok a s' => f a s'
      | .abort k s' => .abort k s' := rfl

namespace strings

theorem splitChars_ne_nil (sep : Char) (cs : List Char) : splitChars sep cs ≠ [] := by
  cases cs with
  | nil => simp [splitChars]
  | cons c cs =>
    by_cases hc : c = sep
    · simp [splitChars, hc]
    · cases hsp : splitChars sep cs <;> simp [splitChars, hc, hsp]

/-- A sequence without the separator is one piece. -/
theorem splitChars_of_not_mem (sep : Char) (cs : List Char) (h : sep ∉ cs) :
    splitChars sep cs = [cs] := by
  induction cs with
  | nil => rfl
  | cons c cs ih =>
    have hc : c ≠ sep := fun e => h (by simp [e])
    have hcs : sep ∉ cs := fun e => h (by simp [e])
    simp [splitChars, hc, ih hcs]

/-- The first piece ends at the first separator. -/
theorem splitChars_append_sep (sep : Char) (a b : List Char) (h : sep ∉ a) :
    splitChars sep (a ++ sep :: b) = a :: splitChars sep b := by
  induction a with
  | nil => simp [splitChars]
  | cons c cs ih =>
    have hc : c ≠ sep := fun e => h (by simp [e])
    have hcs : sep ∉ cs := fun e => h (by simp [e])
    simp [splitChars, hc, ih hcs]

/-- A separator at the end adds one empty piece. -/
theorem splitChars_snoc_sep (sep : Char) (cs : List Char) :
    splitChars sep (cs ++ [sep]) = splitChars sep cs ++ [[]] := by
  induction cs with
  | nil => simp [splitChars]
  | cons c cs ih =>
    by_cases hc : c = sep
    · simp [splitChars, hc] at ih ⊢
      exact ih
    · cases hsp : splitChars sep cs with
      | nil => exact absurd hsp (splitChars_ne_nil sep cs)
      | cons piece pieces => simp [splitChars, hc, ih, hsp]

theorem Split_snoc_sep (s : String) (sep : Char) :
    Split (s ++ String.singleton sep) sep = Split s sep ++ [""] := by
  simp [Split, String.data_append, String.singleton, splitChars_snoc_sep]

theorem Split_key_value (key value more : String) (hkey : '=' ∉ key.data)
    (hvalue : '=' ∉ value.data) (hmore : more = "" ∨ ∃ t : String, more = "=" ++ t) :
    ∃ rest, Split (key ++ "=" ++ value ++ more) '=' = key :: value :: rest := by
  have hdata : (key ++ "=" ++ value ++ more).data = key.data ++ '=' :: (value.data ++ more.data) := by
    simp [String.data_append]
  rcases hmore with rfl | ⟨t, rfl⟩
  · refine ⟨[], ?_⟩
    simp [Split, hdata, splitChars_append_sep _ _ _ hkey, splitChars_of_not_mem _ _ hvalue]
  · refine ⟨Split t '=', ?_⟩
    have ht : ("=" ++ t).data = '=' :: t.data := by simp [String.data_append]
    simp [Split, hdata, ht, splitChars_append_sep _ _ _ hkey, splitChars_append_sep _ _ _ hvalue]

theorem splitChars_two_pieces (sep : Char) (cs : List Char) (h : sep ∈ cs) :
    ∃ a b rest, splitChars sep cs = a :: b :: rest := by
  induction cs with
  | nil => simp at h
  | cons c cs ih =>
    by_cases hc : c = sep
    · cases hsp : splitChars sep cs with
      | nil => exact absurd hsp (splitChars_ne_nil sep cs)
      | cons piece pieces => exact ⟨[], piece, pieces, by simp [splitChars, hc, hsp]⟩
    · have hmem : sep ∈ cs := by
        rcases List.mem_cons.mp h with e | e
        · exact absurd e.symm hc
        · exact e
      obtain ⟨a, b, rest, hsp⟩ := ih hmem
      exact ⟨c :: a, b, rest, by simp [splitChars, hc, hsp]⟩

theorem Split_two_pieces (s : String) (sep : Char) (h : sep ∈ s.data) :
    ∃ a b rest, Split s sep = a :: b :: rest := by
  obtain ⟨a, b, rest, hsp⟩ := splitChars_two_pieces sep s.data h
  exact ⟨String.mk a, String.mk b, rest.map String.mk, by simp [Split, hsp]⟩

end strings

namespace strconv

theorem digitsFrom_all_digits (cs : List Char) :
    ∀ (acc p : Nat), digitsFrom acc cs = some p → ∀ c ∈ cs, digitVal c ≠ none := by
  induction cs with
  | nil => intro _ _ _ c hc; simp at hc
  | cons d ds ih =>
    intro acc p h c hc
    cases hd : digitVal d with
    | none => simp [digitsFrom, hd] at h
    | some v =>
      simp only [digitsFrom, hd] at h
      rcases List.mem_cons.mp hc with rfl | hmem
      · simp [hd]
      · exact ih _ _ h c hmem

theorem decimalValue_all_digits (cs : List Char) (p : Nat) (h : decimalValue cs = some p) :
    ∀ c ∈ cs, digitVal c ≠ none := by
  unfold decimalValue at h
  split at h
  · simp at h
  · exact digitsFrom_all_digits cs 0 p h

end strconv

theorem indexSafe_pure {α : Type} (a : α) : (pure a : M α).indexSafe := by
  intro s i n s' h
  simp at h

theorem indexSafe_bind {α β : Type} (m : M α) (f : α → M β) (hm : m.indexSafe)
    (hf : ∀ a, (f a).indexSafe) : (m >>= f).indexSafe := by
  intro s i n s' h
  rw [run_bind] at h
  cases hr : m s with
  | ok a s1 =>
    rw [hr] at h
    exact hf a s1 i n s' h
  | abort k s1 =>
    rw [hr] at h
    simp only [Result.abort.injEq] at h
    exact hm s i n s' (by rw [hr, h.1, h.2])

theorem indexSafe_ite {α : Type} (c : Prop) [Decidable c] (a b : M α)
    (ha : c → a.indexSafe) (hb : ¬ c → b.indexSafe) : (if c then a else b).indexSafe := by
  by_cases hc : c
  · rw [if_pos hc]; exact ha hc
  · rw [if_neg hc]; exact hb hc

theorem indexSafe_of_ok {α : Type} (m : M α) (h : ∀ s, ∃ a s', m s = .ok a s') : m.indexSafe := by
  intro s i n s' he
  obtain ⟨a, s1, hr⟩ := h s
  rw [hr] at he
  cases he

theorem indexSafe_Unlock : mutex.Unlock.indexSafe := by
  intro s i n s' h
  unfold mutex.Unlock at h
  split at h <;> simp at h

theorem indexSafe_Set (schema : List String) (key : String) (v : Value) :
    (Set schema key v).indexSafe :=
  indexSafe_of_ok _ (fun _ => ⟨_, _, rfl⟩)

theorem indexSafe_logPrintf (line : String) : (logPrintf line).indexSafe :=
  indexSafe_of_ok _ (fun _ => ⟨_, _, rfl⟩)

theorem indexSafe_Logout (client : ProteusAPI) : client.Logout.indexSafe :=
  indexSafe_of_ok _ (fun _ => ⟨_, _, rfl⟩)

theorem indexSafe_GetEntities (client : ProteusAPI) (id : Int) (otype : String) (a b : Int) :
    (client.GetEntities id otype a b).indexSafe :=
  indexSafe_of_ok _ (fun _ => ⟨_, _, rfl⟩)

theorem indexSafe_LogoutClientIfError (client : ProteusAPI) (err : Option GoError)
    (msg : String) : (LogoutClientIfError client err msg).indexSafe := by
  cases err with
  | none => exact indexSafe_pure _
  | some e => exact indexSafe_bind _ _ (indexSafe_Logout client) (fun _ => indexSafe_pure _)

theorem indexSafe_index {α : Type} (xs : List α) (i : Nat) (h : i < xs.length) :
    (index xs i).indexSafe := by
  apply indexSafe_of_ok
  intro s
  refine ⟨xs.get ⟨i, h⟩, s, ?_⟩
  simp [index, List.getElem?_eq_getElem h]

theorem noCreate_pure {α : Type} (a : α) : (pure a : M α).noCreate :=
  fun s => ⟨[], by simp [Result.state], rfl⟩

theorem noCreate_bind {α β : Type} (m : M α) (f : α → M β) (hm : m.noCreate)
    (hf : ∀ a, (f a).noCreate) : (m >>= f).noCreate := by
  intro s
  obtain ⟨added, htrace, hnone⟩ := hm s
  rw [run_bind]
  cases hr : m s with
  | ok a s1 =>
    rw [hr] at htrace
    obtain ⟨added', htrace', hnone'⟩ := hf a s1
    refine ⟨added ++ added', ?_, by simp [hnone, hnone']⟩
    simp only [Result.state] at htrace
    simp [htrace', htrace]
  | abort k s1 =>
    rw [hr] at htrace
    exact ⟨added, htrace, hnone⟩

theorem noCreate_of_event {α : Type} (m : M α) (e : Event)
    (he : isGetNextAvailableIP4Network e = false)
    (h : ∀ s, (m s).state.trace = s.trace ++ [e]) : m.noCreate :=
  fun s => ⟨[e], h s, by simp [List.filter, he]⟩

theorem noCreate_Lock : mutex.Lock.noCreate :=
  noCreate_of_event _ .lock rfl (fun s => by unfold mutex.Lock; split <;> rfl)

theorem noCreate_Unlock : mutex.Unlock.noCreate :=
  noCreate_of_event _ .unlock rfl (fun s => by unfold mutex.Unlock; split <;> rfl)

theorem noCreate_SetId (id : String) : (SetId id).noCreate :=
  noCreate_of_event _ (.setId id) rfl (fun _ => rfl)

theorem noCreate_Set (schema : List String) (key : String) (v : Value) :
    (Set schema key v).noCreate :=
  noCreate_of_event _ (.set key v) rfl (fun _ => rfl)

theorem noCreate_logPrintf (line : String) : (logPrintf line).noCreate :=
  noCreate_of_event _ (.log line) rfl (fun _ => rfl)

theorem noCreate_Logout (client : ProteusAPI) : client.Logout.noCreate :=
  noCreate_of_event _ (.api .Logout) rfl (fun _ => rfl)

theorem noCreate_GetEntityById (client : ProteusAPI) (id : Int) :
    (client.GetEntityById id).noCreate :=
  noCreate_of_event _ (.api (.GetEntityById id)) rfl (fun _ => rfl)

theorem noCreate_getData : getData.noCreate :=
  fun s => ⟨[], by simp [getData, Result.state], rfl⟩

theorem noCreate_LogoutClientIfError (client : ProteusAPI) (err : Option GoError)
    (msg : String) : (LogoutClientIfError client err msg).noCreate := by
  cases err with
  | none => exact noCreate_pure _
  | some e => exact noCreate_bind _ _ (noCreate_Logout client) (fun _ => noCreate_pure _)

theorem noCreate_index {α : Type} (xs : List α) (i : Nat) : (index xs i).noCreate := by
  intro s
  refine ⟨[], ?_, rfl⟩
  unfold index
  split <;> simp [Result.state]

theorem noCreate_GetEntities (client : ProteusAPI) (id : Int) (otype : String) (a b : Int) :
    (client.GetEntities id otype a b).noCreate :=
  noCreate_of_event _ (.api (.GetEntities id otype a b)) rfl (fun _ => rfl)

namespace Provider

/-- C1: for a cidr `address/digits`, where `address` holds no `/` and `digits` is a
sequence of decimal digits of value `p` with `p ≤ 32`, and a `GetEntities` answer without
an error that holds the items `items`, `getIP4NetworkAddressUsage` issues the one call
`GetEntities(id, "IP4Address", 0, 2^(32-p))` and returns `(n, 2^(32-p) - n, nil)` for
`n = len(items)`: in-use is the number of items, the total is `2^(32-p)` and free is the
total minus in-use. -/
theorem getIP4NetworkAddressUsage_counts (fl : strconv.FloatLib) (client : ProteusAPI)
    (id : Int) (address digits : String) (p : Nat) (items : List APIEntity) (s : State)
    (haddress : '/' ∉ address.data)
    (hdigits : strconv.decimalValue digits.data = some p) (hp : p ≤ 32)
    (hresp : client.onGetEntities s.trace id "IP4Address" 0 (2 ^ (32 - p)) = (items, none)) :
    getIP4NetworkAddressUsage fl id (address ++ "/" ++ digits) client s =
      .ok ((items.length : Int), (2 ^ (32 - p) - (items.length : Int), none))
        { s with trace := s.trace ++ [.api (.GetEntities id "IP4Address" 0 (2 ^ (32 - p)))] } := by
  have hslash : '/' ∉ digits.data := by
    intro hmem
    exact strconv.decimalValue_all_digits _ _ hdigits '/' hmem (by decide)
  have hsplit : strings.Split (address ++ "/" ++ digits) '/' = [address, digits] := by
    have hdata : (address ++ "/" ++ digits).data = address.data ++ '/' :: digits.data := by
      simp [String.data_append]
    simp [strings.Split, hdata, strings.splitChars_append_sep _ _ _ haddress,
      strings.splitChars_of_not_mem _ _ hslash]
  have hparse : strconv.ParseFloat fl digits = (.exact p, none) := by
    simp only [strconv.ParseFloat, hdigits]
    rw [if_pos (lt_of_le_of_lt hp (by norm_num))]
  simp [getIP4NetworkAddressUsage, hsplit, index, hparse, addressCount, hp,
    ProteusAPI.GetEntities, hresp]

/-- C1 at the cidr `10.0.0.0/24` with two addresses in use: 256 addresses are requested,
2 are in use and 254 are free. -/
theorem getIP4NetworkAddressUsage_counts_witness :
    getIP4NetworkAddressUsage sampleFloatLib 7 ("10.0.0.0" ++ "/" ++ "24") sampleClient
        sampleState =
      .ok (2, (254, none))
        { sampleState with trace := [.lock, .api (.GetEntities 7 "IP4Address" 0 256)] } :=
  getIP4NetworkAddressUsage_counts sampleFloatLib sampleClient 7 "10.0.0.0" "24" 24
    [⟨8, "10.0.0.1", "IP4Address", ""⟩, ⟨9, "10.0.0.2", "IP4Address", ""⟩]
    sampleState (by decide) (by decide) (by decide) rfl

/-- C6, the failing path: when the parsed cidr is `10.0.0.0/zz`, whose netmask
`strconv.ParseFloat` rejects, `getIP4NetworkAddressUsage` unlocks the mutex before it
returns its error and `dataSourceIP4NetworkRead` unlocks it again: the run has one `Lock`
and two `Unlock`, and it stops on the second one with the fatal error of unlocking an
unlocked mutex instead of returning. -/
theorem dataSourceIP4NetworkRead_unlocks_twice :
    (dataSourceIP4NetworkRead sampleFloatLib (sampleGobam "10.0.0.0/zz") ⟨sampleClient⟩
        dataSourceEntry).state.trace.filter (fun e => e = .lock ∨ e = .unlock) =
        [.lock, .unlock, .unlock] ∧
      ∃ s', dataSourceIP4NetworkRead sampleFloatLib (sampleGobam "10.0.0.0/zz") ⟨sampleClient⟩
        dataSourceEntry = .abort .unlockOfUnlockedMutex s' := by
  refine ⟨by decide, _, rfl⟩

/-- C9, the failing input: the parsed properties hold the default domains
`["example.com"]` and the DNS restrictions `["restricted.example"]`; the read succeeds and
leaves the default domains in both `default_domains` and `dns_restrictions`, so
`dns_restrictions` does not hold the parsed DNS restrictions. -/
theorem dns_restrictions_holds_default_domains :
    ∃ s', dataSourceIP4NetworkRead sampleFloatLib (sampleGobam "10.0.0.0/24") ⟨sampleClient⟩
        dataSourceEntry = .ok none s' ∧
      s'.d.lookup "dns_restrictions" = some (.strs ["example.com"]) ∧
      s'.d.lookup "default_domains" = some (.strs ["example.com"]) ∧
      ((sampleGobam "10.0.0.0/24").ParseIP4NetworkProperties
          sampleNetwork.Properties).1.DNSRestrictions = ["restricted.example"] ∧
      s'.d.lookup "dns_restrictions" ≠ some (.strs ["restricted.example"]) := by
  refine ⟨_, rfl, by decide, by decide, by decide, by decide⟩

end Provider

namespace Legacy

theorem loopBody_empty (fl : strconv.FloatLib) (client : ProteusAPI) (resp : APIEntity)
    (seg : String) (h : ¬ seg.length > 0) : loopBody fl client resp seg = pure none := by
  simp [loopBody, h]

theorem propertyLoop_filter (fl : strconv.FloatLib) (client : ProteusAPI) (resp : APIEntity)
    (segs : List String) :
    propertyLoop fl client resp segs =
      propertyLoop fl client resp (segs.filter (fun seg => seg.length > 0)) := by
  induction segs with
  | nil => rfl
  | cons seg rest ih =>
    by_cases h : seg.length > 0
    · simp only [List.filter, h, decide_True, propertyLoop]
      rw [ih]
    · have hb : loopBody fl client resp seg = pure none := loopBody_empty fl client resp seg h
      simp only [List.filter, h, decide_False, propertyLoop, hb]
      rw [← ih]
      funext s
      rfl

/-- C2: from every state and for every server, the property loop gives the same result
(the same return value or abort, the same state fields, the same events) on the segments
of `properties ++ "|"` as on the segments of `properties`; more generally, on every list
of segments it gives the same result as on the list without its empty segments. -/
theorem propertyLoop_trailing_separator (fl : strconv.FloatLib) (client : ProteusAPI)
    (resp : APIEntity) (properties : String) (segs : List String) (s : State) :
    propertyLoop fl client resp (strings.Split (properties ++ "|") '|') s =
        propertyLoop fl client resp (strings.Split properties '|') s ∧
      propertyLoop fl client resp segs s =
        propertyLoop fl client resp (segs.filter (fun seg => seg.length > 0)) s := by
  refine ⟨?_, by rw [← propertyLoop_filter]⟩
  have h := strings.Split_snoc_sep properties '|'
  have h' : strings.Split (properties ++ "|") '|' = strings.Split properties '|' ++ [""] := h
  rw [h', propertyLoop_filter fl client resp (_ ++ [""]),
    propertyLoop_filter fl client resp (strings.Split properties '|')]
  simp

theorem segment_length_pos (key rest : String) : (key ++ "=" ++ rest).length > 0 := by
  have h : ("=" : String).length = 1 := rfl
  simp only [String.length_append, h]
  omega

theorem loopBody_of_pieces (fl : strconv.FloatLib) (client : ProteusAPI) (resp : APIEntity)
    (seg prop val : String) (rest : List String) (hlen : seg.length > 0)
    (hsplit : strings.Split seg '=' = prop :: val :: rest) :
    loopBody fl client resp seg = propertySwitch fl client resp prop val := by
  unfold loopBody
  rw [if_pos hlen, hsplit]
  rfl

/-- C3: for a segment `key=value` whose key (the text before its first `=`) is none of
the eleven known keys, the loop body leaves the Terraform data and the mutex as they are,
adds one log line and no remote call to the trace, and lets the loop go on. -/
theorem loopBody_unknown_key (fl : strconv.FloatLib) (client : ProteusAPI) (resp : APIEntity)
    (key value : String) (s : State) (hkey : '=' ∉ key.data) (hunknown : key ∉ knownKeys) :
    loopBody fl client resp (key ++ "=" ++ value) s =
      .ok none { s with
        trace := s.trace ++ [.log ("[WARN] Unknown IP4 Address Property: " ++ key)] } := by
  have hlen := segment_length_pos key value
  have hdata : (key ++ "=" ++ value).data = key.data ++ '=' :: value.data := by
    simp [String.data_append]
  obtain ⟨piece, pieces, hsp⟩ :
      ∃ piece pieces, strings.splitChars '=' value.data = piece :: pieces := by
    cases h : strings.splitChars '=' value.data with
    | nil => exact absurd h (strings.splitChars_ne_nil _ _)
    | cons a b => exact ⟨a, b, rfl⟩
  have hsplit : strings.Split (key ++ "=" ++ value) '=' =
      key :: String.mk piece :: pieces.map String.mk := by
    simp [strings.Split, hdata, strings.splitChars_append_sep _ _ _ hkey, hsp]
  simp only [knownKeys, List.mem_cons, List.mem_singleton, not_or, List.not_mem_nil,
    or_false] at hunknown
  obtain ⟨h1, h2, h3, h4, h5, h6, h7, h8, h9, h10, h11⟩ := hunknown
  rw [loopBody_of_pieces fl client resp _ _ _ _ hlen hsplit]
  simp [propertySwitch, h1, h2, h3, h4, h5, h6, h7, h8, h9, h10, h11, logPrintf, emit]

theorem write_lookup (d : ResourceData) (field : String) (v : Value)
    (h : field ∈ dataSourceIP4Network) :
    (d.write dataSourceIP4Network field v).lookup field = some v := by
  simp [ResourceData.write, h, ResourceData.lookup]

theorem boolCase_run (client : ProteusAPI) (msg field val : String) (s : State)
    (hheld : s.held = true) :
    boolCase client msg field val s =
      match (strconv.ParseBool val).2 with
      | none => .ok none { s with
          d := s.d.write dataSourceIP4Network field (.bool (strconv.ParseBool val).1),
          trace := s.trace ++ [.set field (.bool (strconv.ParseBool val).1)] }
      | some e => .ok (some (.wrapped msg e)) { s with
          held := false, trace := s.trace ++ [.api .Logout, .unlock] } := by
  cases h : (strconv.ParseBool val).2 with
  | none => simp [boolCase, h, LogoutClientIfError, Set]
  | some e =>
    simp [boolCase, h, LogoutClientIfError, ProteusAPI.Logout, mutex.Unlock, hheld]

theorem dataSourceIP4NetworkRead_loop_error (fl : strconv.FloatLib) (configuration : Config)
    (client : ProteusAPI) (s : State) (containerID : Int) (resp : APIEntity) (e : GoError)
    (s' : State) (hfree : s.held = false)
    (hclient : configuration.Client (s.trace ++ [.lock]) = .ok client)
    (hparse : strconv.ParseInt (s.d.getString "container_id") = (containerID, none))
    (hget : client.onGetIPRangedByIP (s.trace ++ [.lock]) containerID (s.d.getString "type")
      (s.d.getString "address") = (resp, none))
    (hloop : propertyLoop fl client resp (strings.Split resp.Properties '|')
      (stateBeforeLoop s containerID resp) = .ok (some e) s') :
    dataSourceIP4NetworkRead fl configuration s = .ok (some e) s' := by
  have hs1 : stateBeforeLoop s containerID resp =
      { d := ((({ s.d with id := strconv.FormatInt resp.Id }).write dataSourceIP4Network "name"
          (.str resp.Name)).write dataSourceIP4Network "properties"
          (.str resp.Properties)).write dataSourceIP4Network "type" (.str resp.Type'),
        held := true,
        trace := s.trace ++ [.lock,
          .api (.GetIPRangedByIP containerID (s.d.getString "type") (s.d.getString "address")),
          .setId (strconv.FormatInt resp.Id), .set "name" (.str resp.Name),
          .set "properties" (.str resp.Properties), .set "type" (.str resp.Type')] } := rfl
  simp only [dataSourceIP4NetworkRead, run_bind, mutex.Lock, hfree, getClient, hclient,
    getData, hparse, LogoutClientIfError, run_pure, ProteusAPI.GetIPRangedByIP, hget, SetId, Set,
    List.append_assoc, List.singleton_append, List.cons_append, List.nil_append,
    Bool.false_eq_true, if_false]
  rw [hs1] at hloop
  simp only [List.append_assoc, List.singleton_append, List.cons_append, List.nil_append]
    at hloop
  rw [hloop]
  rfl

/-- C4 as stated fails at the segment `inheritDefaultView=true=x`: its value, the text
after the first `=`, is `true=x`, which `strconv.ParseBool` rejects, yet the loop body
returns no error and sets `inherit_default_view` to true; and the whole read of a network
with the property string `inheritDefaultView=true=x|` returns nil with that field true. -/
theorem boolean_value_with_equals_is_accepted :
    (strconv.ParseBool "true=x").2 = some (.syntaxError "ParseBool" "true=x") ∧
      loopBody sampleFloatLib sampleClient sampleNetwork "inheritDefaultView=true=x"
          sampleState =
        .ok none { sampleState with
          d := { id := "7", fields := [("inherit_default_view", .bool true)] },
          trace := [.lock, .set "inherit_default_view" (.bool true)] } ∧
      ∃ s', dataSourceIP4NetworkRead sampleFloatLib ⟨fun _ => .ok equalsInValueClient⟩
          dataSourceEntry = .ok none s' ∧
        s'.d.lookup "inherit_default_view" = some (.bool true) := by
  refine ⟨by decide, by decide, _, rfl, by decide⟩

/-- C4, amended: take a segment with one of the five boolean keys and let `value` be
`Split(segment, "=")[1]`, the text between the first `=` of the segment and its next `=`
or its end (`more` is the rest of the segment, empty or from that next `=` on).  Processed
while the mutex is held:
* when `strconv.ParseBool` accepts `value` as `b`, the loop body sets the `inherit_*` field
  of the key to `b` and the loop goes on; in particular `true` sets it to true and `false`
  to false;
* when `strconv.ParseBool` rejects `value`, the handler logs out, unlocks and returns an
  error, and the field is not set: the data is unchanged and the trace has no `Set`;
* so the loop body returns an error if and only if `strconv.ParseBool` does not accept
  `value`;
* on that error the loop stops at the segment, whatever segments follow, and when the
  segment is the first of the property string of the entity that `GetIPRangedByIP`
  returned, `dataSourceIP4NetworkRead` returns that error. -/
theorem boolean_key_segment (fl : strconv.FloatLib) (client : ProteusAPI) (resp : APIEntity)
    (key field value more : String) (s : State)
    (hkey : (key, field) ∈ boolKeys) (hvalue : '=' ∉ value.data)
    (hmore : more = "" ∨ ∃ t : String, more = "=" ++ t) (hheld : s.held = true) :
    (∀ b, strconv.ParseBool value = (b, none) →
        loopBody fl client resp (key ++ "=" ++ value ++ more) s =
          .ok none { s with
            d := s.d.write dataSourceIP4Network field (.bool b),
            trace := s.trace ++ [.set field (.bool b)] } ∧
        (s.d.write dataSourceIP4Network field (.bool b)).lookup field = some (.bool b)) ∧
      (value = "true" →
        loopBody fl client resp (key ++ "=" ++ value ++ more) s =
          .ok none { s with
            d := s.d.write dataSourceIP4Network field (.bool true),
            trace := s.trace ++ [.set field (.bool true)] }) ∧
      (value = "false" →
        loopBody fl client resp (key ++ "=" ++ value ++ more) s =
          .ok none { s with
            d := s.d.write dataSourceIP4Network field (.bool false),
            trace := s.trace ++ [.set field (.bool false)] }) ∧
      (∀ e, (strconv.ParseBool value).2 = some e →
        loopBody fl client resp (key ++ "=" ++ value ++ more) s =
          .ok (some (.wrapped ("Unable to parse " ++ key ++ " to bool") e)) { s with
            held := false, trace := s.trace ++ [.api .Logout, .unlock] }) ∧
      ((∃ e s', loopBody fl client resp (key ++ "=" ++ value ++ more) s = .ok (some e) s') ↔
        (strconv.ParseBool value).2 ≠ none) ∧
      (∀ e rest, (strconv.ParseBool value).2 = some e →
        propertyLoop fl client resp ((key ++ "=" ++ value ++ more) :: rest) s =
          .ok (some (.wrapped ("Unable to parse " ++ key ++ " to bool") e)) { s with
            held := false, trace := s.trace ++ [.api .Logout, .unlock] }) ∧
      (∀ (configuration : Config) (s0 : State) (containerID : Int) (e : GoError)
          (rest : List String),
        s0.held = false →
        configuration.Client (s0.trace ++ [.lock]) = .ok client →
        strconv.ParseInt (s0.d.getString "container_id") = (containerID, none) →
        client.onGetIPRangedByIP (s0.trace ++ [.lock]) containerID (s0.d.getString "type")
          (s0.d.getString "address") = (resp, none) →
        strings.Split resp.Properties '|' = (key ++ "=" ++ value ++ more) :: rest →
        (strconv.ParseBool value).2 = some e →
        dataSourceIP4NetworkRead fl configuration s0 =
          .ok (some (.wrapped ("Unable to parse " ++ key ++ " to bool") e))
            { stateBeforeLoop s0 containerID resp with
              held := false,
              trace := (stateBeforeLoop s0 containerID resp).trace ++
                [.api .Logout, .unlock] }) := by
  have hkeyeq : '=' ∉ key.data ∧ field ∈ dataSourceIP4Network ∧
      propertySwitch fl client resp key value =
        boolCase client ("Unable to parse " ++ key ++ " to bool") field value := by
    simp only [boolKeys, List.mem_cons, List.mem_singleton, Prod.mk.injEq, List.not_mem_nil,
      or_false] at hkey
    rcases hkey with ⟨rfl, rfl⟩ | ⟨rfl, rfl⟩ | ⟨rfl, rfl⟩ | ⟨rfl, rfl⟩ | ⟨rfl, rfl⟩ <;>
      exact ⟨by decide, by decide, by simp [propertySwitch]⟩
  obtain ⟨hk, hfield, hswitch⟩ := hkeyeq
  obtain ⟨rest, hsplit⟩ := strings.Split_key_value key value more hk hvalue hmore
  have hlen : (key ++ "=" ++ value ++ more).length > 0 := by
    have := segment_length_pos key value
    simp only [String.length_append] at this ⊢
    omega
  have hrun := loopBody_of_pieces fl client resp _ _ _ _ hlen hsplit
  have herr : ∀ (t : State) (e : GoError), t.held = true →
      (strconv.ParseBool value).2 = some e →
      loopBody fl client resp (key ++ "=" ++ value ++ more) t =
        .ok (some (.wrapped ("Unable to parse " ++ key ++ " to bool") e)) { t with
          held := false, trace := t.trace ++ [.api .Logout, .unlock] } := by
    intro t e ht he
    rw [hrun, hswitch, boolCase_run client _ field value t ht]
    simp [he]
  have hloop : ∀ (t : State) (e : GoError) (others : List String), t.held = true →
      (strconv.ParseBool value).2 = some e →
      propertyLoop fl client resp ((key ++ "=" ++ value ++ more) :: others) t =
        .ok (some (.wrapped ("Unable to parse " ++ key ++ " to bool") e)) { t with
          held := false, trace := t.trace ++ [.api .Logout, .unlock] } := by
    intro t e others ht he
    simp only [propertyLoop, run_bind, herr t e ht he]
    rfl
  refine ⟨?_, ?_, ?_, ?_, ?_, ?_, ?_⟩
  · intro b hb
    rw [hrun, hswitch, boolCase_run client _ field value s hheld]
    simp [hb, write_lookup _ _ _ hfield]
  · intro hv
    have hb : strconv.ParseBool value = (true, none) := by rw [hv]; decide
    rw [hrun, hswitch, boolCase_run client _ field value s hheld]
    simp [hb]
  · intro hv
    have hb : strconv.ParseBool value = (false, none) := by rw [hv]; decide
    rw [hrun, hswitch, boolCase_run client _ field value s hheld]
    simp [hb]
  · intro e he
    exact herr s e hheld he
  · rw [hrun, hswitch, boolCase_run client _ field value s hheld]
    cases h : (strconv.ParseBool value).2 <;> simp
  · intro e others he
    exact hloop s e others hheld he
  · intro configuration s0 containerID e others hfree hclient hparse hget hprops he
    refine dataSourceIP4NetworkRead_loop_error fl configuration client s0 containerID resp _ _
      hfree hclient hparse hget ?_
    rw [hprops]
    exact hloop (stateBeforeLoop s0 containerID resp) e others rfl he

/-- C3 at the segment `locationCode=US DTW`. -/
theorem loopBody_unknown_key_witness :
    loopBody sampleFloatLib sampleClient sampleNetwork ("locationCode" ++ "=" ++ "US DTW")
        sampleState =
      .ok none { sampleState with
        trace := sampleState.trace ++
          [.log ("[WARN] Unknown IP4 Address Property: " ++ "locationCode")] } :=
  loopBody_unknown_key sampleFloatLib sampleClient sampleNetwork "locationCode" "US DTW"
    sampleState (by decide) (by decide)

/-- C4, amended, at the segment `inheritDefaultView=true`, where the field
`inherit_default_view` is set to true, and at a network with the property string
`inheritDefaultView=maybe|`, where the read logs out, unlocks and returns the error. -/
theorem boolean_key_segment_witness :
    loopBody sampleFloatLib sampleClient sampleNetwork
          ("inheritDefaultView" ++ "=" ++ "true" ++ "") sampleState =
        .ok none { sampleState with
          d := sampleState.d.write dataSourceIP4Network "inherit_default_view" (.bool true),
          trace := sampleState.trace ++ [.set "inherit_default_view" (.bool true)] } ∧
      dataSourceIP4NetworkRead sampleFloatLib ⟨fun _ => .ok badBooleanClient⟩ dataSourceEntry =
        .ok (some (.wrapped ("Unable to parse " ++ "inheritDefaultView" ++ " to bool")
            (.syntaxError "ParseBool" "maybe")))
          { stateBeforeLoop dataSourceEntry 5
              { sampleNetwork with Properties := "inheritDefaultView=maybe|" } with
            held := false,
            trace := (stateBeforeLoop dataSourceEntry 5
              { sampleNetwork with Properties := "inheritDefaultView=maybe|" }).trace ++
                [.api .Logout, .unlock] } :=
  ⟨((boolean_key_segment sampleFloatLib sampleClient sampleNetwork "inheritDefaultView"
      "inherit_default_view" "true" "" sampleState (by decide) (by decide) (Or.inl rfl) rfl).1
        true (by decide)).1,
    (boolean_key_segment sampleFloatLib badBooleanClient
      { sampleNetwork with Properties := "inheritDefaultView=maybe|" } "inheritDefaultView"
      "inherit_default_view" "maybe" "" sampleState (by decide) (by decide) (Or.inl rfl)
      rfl).2.2.2.2.2.2 ⟨fun _ => .ok badBooleanClient⟩ dataSourceEntry 5
        (.syntaxError "ParseBool" "maybe") [""] rfl rfl (by decide) rfl (by decide)
        (by decide)⟩

/-- C5 as stated fails at the segment `reference=a=b`: the whole text after the first `=`
is `a=b`, but the loop body sets `reference` to `a`. -/
theorem string_value_cut_at_second_equals :
    loopBody sampleFloatLib sampleClient sampleNetwork "reference=a=b" sampleState =
        .ok none
          { d := { id := "7", fields := [("reference", .str "a")] }, held := true,
            trace := [.lock, .set "reference" (.str "a")] } ∧
      (loopBody sampleFloatLib sampleClient sampleNetwork "reference=a=b" sampleState).state.d.lookup
          "reference" ≠ some (.str "a=b") := by
  decide

/-- C5, amended: for a segment with one of the five string-valued keys, the field of the
key is set to `value`, the text between the first `=` of the segment and its next `=` or
its end (`more` is the rest of the segment, empty or from that next `=` on); when the
text after the first `=` holds no `=` (`more` is empty), this is the whole of it. -/
theorem string_key_segment (fl : strconv.FloatLib) (client : ProteusAPI) (resp : APIEntity)
    (key field value more : String) (s : State)
    (hkey : (key, field) ∈ stringKeys) (hvalue : '=' ∉ value.data)
    (hmore : more = "" ∨ ∃ t : String, more = "=" ++ t) :
    loopBody fl client resp (key ++ "=" ++ value ++ more) s =
        .ok none { s with
          d := s.d.write dataSourceIP4Network field (.str value),
          trace := s.trace ++ [.set field (.str value)] } ∧
      (s.d.write dataSourceIP4Network field (.str value)).lookup field = some (.str value) := by
  have hkeyeq : '=' ∉ key.data ∧ field ∈ dataSourceIP4Network ∧
      propertySwitch fl client resp key value =
        (do Set dataSourceIP4Network field (.str value); pure none) := by
    simp only [stringKeys, List.mem_cons, List.mem_singleton, Prod.mk.injEq, List.not_mem_nil,
      or_false] at hkey
    rcases hkey with ⟨rfl, rfl⟩ | ⟨rfl, rfl⟩ | ⟨rfl, rfl⟩ | ⟨rfl, rfl⟩ | ⟨rfl, rfl⟩ <;>
      exact ⟨by decide, by decide, by simp [propertySwitch]⟩
  obtain ⟨hk, hfield, hswitch⟩ := hkeyeq
  obtain ⟨rest, hsplit⟩ := strings.Split_key_value key value more hk hvalue hmore
  have hlen : (key ++ "=" ++ value ++ more).length > 0 := by
    have := segment_length_pos key value
    simp only [String.length_append] at this ⊢
    omega
  rw [loopBody_of_pieces fl client resp _ _ _ _ hlen hsplit, hswitch]
  exact ⟨by simp [Set], write_lookup _ _ _ hfield⟩

/-- C5, amended, at the segment `reference=a=b`: the field `reference` is set to `a`. -/
theorem string_key_segment_witness :
    loopBody sampleFloatLib sampleClient sampleNetwork
        ("reference" ++ "=" ++ "a" ++ "=b") sampleState =
      .ok none { sampleState with
        d := sampleState.d.write dataSourceIP4Network "reference" (.str "a"),
        trace := sampleState.trace ++ [.set "reference" (.str "a")] } :=
  (string_key_segment sampleFloatLib sampleClient sampleNetwork "reference" "reference" "a" "=b"
    sampleState (by decide) (by decide) (Or.inr ⟨"b", rfl⟩)).1

theorem indexSafe_returnError (e : GoError) :
    (do mutex.Unlock; pure (some e) : M (Option GoError)).indexSafe :=
  indexSafe_bind _ _ indexSafe_Unlock (fun _ => indexSafe_pure _)

theorem indexSafe_boolCase (client : ProteusAPI) (msg field val : String) :
    (boolCase client msg field val).indexSafe := by
  unfold boolCase
  refine indexSafe_bind _ _ (indexSafe_LogoutClientIfError _ _ _) (fun err => ?_)
  cases err with
  | none => exact indexSafe_bind _ _ (indexSafe_Set _ _ _) (fun _ => indexSafe_pure _)
  | some e => exact indexSafe_returnError e

theorem indexSafe_setString (field val : String) :
    (do Set dataSourceIP4Network field (.str val); pure none : M (Option GoError)).indexSafe :=
  indexSafe_bind _ _ (indexSafe_Set _ _ _) (fun _ => indexSafe_pure _)

theorem indexSafe_cidrCase (fl : strconv.FloatLib) (client : ProteusAPI) (resp : APIEntity)
    (val : String) (h : '/' ∈ val.data) : (cidrCase fl client resp val).indexSafe := by
  obtain ⟨a, b, rest, hsp⟩ := strings.Split_two_pieces val '/' h
  unfold cidrCase
  refine indexSafe_bind _ _ (indexSafe_index _ _ (by rw [hsp]; simp)) (fun mask => ?_)
  refine indexSafe_bind _ _ (indexSafe_LogoutClientIfError _ _ _) (fun err => ?_)
  cases err with
  | some e => exact indexSafe_returnError e
  | none =>
    refine indexSafe_bind _ _ (indexSafe_GetEntities _ _ _ _ _) (fun got => ?_)
    refine indexSafe_bind _ _ (indexSafe_LogoutClientIfError _ _ _) (fun err => ?_)
    cases err with
    | some e => exact indexSafe_returnError e
    | none =>
      refine indexSafe_bind _ _ (indexSafe_Set _ _ _) (fun _ => ?_)
      refine indexSafe_bind _ _ (indexSafe_Set _ _ _) (fun _ => ?_)
      exact indexSafe_bind _ _ (indexSafe_Set _ _ _) (fun _ => indexSafe_pure _)

theorem indexSafe_propertySwitch (fl : strconv.FloatLib) (client : ProteusAPI)
    (resp : APIEntity) (prop val : String) (h : prop = "CIDR" → '/' ∈ val.data) :
    (propertySwitch fl client resp prop val).indexSafe := by
  unfold propertySwitch
  refine indexSafe_ite _ _ _ (fun hp => indexSafe_cidrCase fl client resp val (h hp)) (fun _ => ?_)
  refine indexSafe_ite _ _ _ (fun _ => indexSafe_setString _ _) (fun _ => ?_)
  refine indexSafe_ite _ _ _ (fun _ => indexSafe_boolCase _ _ _ _) (fun _ => ?_)
  refine indexSafe_ite _ _ _ (fun _ => indexSafe_setString _ _) (fun _ => ?_)
  refine indexSafe_ite _ _ _ (fun _ => indexSafe_boolCase _ _ _ _) (fun _ => ?_)
  refine indexSafe_ite _ _ _ (fun _ => indexSafe_setString _ _) (fun _ => ?_)
  refine indexSafe_ite _ _ _ (fun _ => indexSafe_setString _ _) (fun _ => ?_)
  refine indexSafe_ite _ _ _ (fun _ => indexSafe_boolCase _ _ _ _) (fun _ => ?_)
  refine indexSafe_ite _ _ _ (fun _ => indexSafe_setString _ _) (fun _ => ?_)
  refine indexSafe_ite _ _ _ (fun _ => indexSafe_boolCase _ _ _ _) (fun _ => ?_)
  refine indexSafe_ite _ _ _ (fun _ => indexSafe_boolCase _ _ _ _) (fun _ => ?_)
  exact indexSafe_bind _ _ (indexSafe_logPrintf _) (fun _ => indexSafe_pure _)

theorem segmentFormat_pieces (seg : String) (hformat : segmentFormat seg = true)
    (hlen : seg.length > 0) :
    ∃ prop val rest, strings.Split seg '=' = prop :: val :: rest ∧
      (prop = "CIDR" → '/' ∈ val.data) := by
  have hne : seg.length ≠ 0 := Nat.pos_iff_ne_zero.mp hlen
  simp only [segmentFormat, Bool.or_eq_true, Bool.and_eq_true, decide_eq_true_eq] at hformat
  rcases hformat with h0 | ⟨heq, hcidr⟩
  · exact absurd h0 hne
  · obtain ⟨prop, val, rest, hsp⟩ := strings.Split_two_pieces seg '=' heq
    rw [hsp] at hcidr
    have hcidr' : ¬ prop = "CIDR" ∨ '/' ∈ val.data := by simpa using hcidr
    exact ⟨prop, val, rest, hsp, fun hp => hcidr'.resolve_left (not_not.mpr hp)⟩

theorem indexSafe_loopBody (fl : strconv.FloatLib) (client : ProteusAPI) (resp : APIEntity)
    (seg : String) (h : segmentFormat seg = true) :
    (loopBody fl client resp seg).indexSafe := by
  by_cases hlen : seg.length > 0
  · obtain ⟨prop, val, rest, hsp, hcidr⟩ := segmentFormat_pieces seg h hlen
    rw [loopBody_of_pieces fl client resp seg prop val rest hlen hsp]
    exact indexSafe_propertySwitch fl client resp prop val hcidr
  · rw [loopBody_empty fl client resp seg hlen]
    exact indexSafe_pure _

theorem indexSafe_propertyLoop (fl : strconv.FloatLib) (client : ProteusAPI) (resp : APIEntity)
    (segs : List String) (h : ∀ seg ∈ segs, segmentFormat seg = true) :
    (propertyLoop fl client resp segs).indexSafe := by
  induction segs with
  | nil => exact indexSafe_pure _
  | cons seg rest ih =>
    unfold propertyLoop
    refine indexSafe_bind _ _ (indexSafe_loopBody fl client resp seg (h seg (by simp)))
      (fun returned => ?_)
    cases returned with
    | some e => exact indexSafe_pure _
    | none => exact ih (fun seg' hmem => h seg' (by simp [hmem]))

/-- C10: under the format of the spec (every non-empty segment holds a `=`, and the value
of every `CIDR` segment holds a `/`) no run of the property loop stops on an index out of
range, whatever the server answers; and the property string `gateway`, a non-empty
segment without `=`, is outside the format and stops the loop on the access
`Split(seg, "=")[1]`, index 1 of a slice of length 1. -/
theorem propertyLoop_index_in_bounds (fl : strconv.FloatLib) (client : ProteusAPI)
    (resp : APIEntity) (properties : String) (s : State)
    (hformat : propertyFormat properties = true) :
    (∀ (i n : Nat) (s' : State),
        propertyLoop fl client resp (strings.Split properties '|') s ≠
          .abort (.indexOutOfRange i n) s') ∧
      ∃ bad : String, propertyFormat bad = false ∧
        propertyLoop fl client resp (strings.Split bad '|') s =
          .abort (.indexOutOfRange 1 1) s := by
  refine ⟨indexSafe_propertyLoop fl client resp _ (List.all_eq_true.mp hformat) s, "gateway",
    by decide, ?_⟩
  have hsp : strings.Split "gateway" '|' = ["gateway"] := by decide
  have hsp2 : strings.Split "gateway" '=' = ["gateway"] := by decide
  have hlen : ("gateway" : String).length > 0 := by decide
  have hbody : loopBody fl client resp "gateway" s = .abort (.indexOutOfRange 1 1) s := by
    unfold loopBody
    rw [if_pos hlen, hsp2]
    rfl
  simp [hsp, propertyLoop, hbody]

/-- C10 at the property string `CIDR=10.0.0.0/24|gateway=10.0.0.1|`, which has the format:
the loop does not stop on an index out of range. -/
theorem propertyLoop_index_in_bounds_witness :
    propertyFormat "CIDR=10.0.0.0/24|gateway=10.0.0.1|" = true ∧
      ∀ (i n : Nat) (s' : State),
        propertyLoop sampleFloatLib sampleClient sampleNetwork
            (strings.Split "CIDR=10.0.0.0/24|gateway=10.0.0.1|" '|') sampleState ≠
          .abort (.indexOutOfRange i n) s' :=
  ⟨by decide,
    (propertyLoop_index_in_bounds sampleFloatLib sampleClient sampleNetwork
      "CIDR=10.0.0.0/24|gateway=10.0.0.1|" sampleState (by decide)).1⟩

/-- C7, the failing input: on a server that refuses every `Update`, both
`resourceIP4NetworkCreate` and `resourceIP4NetworkUpdate` issue the `Update` call, drop
the error it returns and return nil, the result of the `resourceIP4NetworkRead` they end
with. -/
theorem update_error_is_dropped :
    (∀ trace entity,
        updateRefusingClient.onUpdate trace entity = some (.remote "update refused")) ∧
      (∃ s', resourceIP4NetworkCreate sampleHelpers ⟨fun _ => .ok updateRefusingClient⟩
          resourceEntry = .ok none s' ∧
        Event.api (.Update ⟨7, "lab", "IP4Network", ""⟩) ∈ s'.trace) ∧
      (∃ s', resourceIP4NetworkUpdate sampleHelpers ⟨fun _ => .ok updateRefusingClient⟩
          resourceUpdateEntry = .ok none s' ∧
        Event.api (.Update ⟨7, "lab2", "IP4Network", ""⟩) ∈ s'.trace) := by
  refine ⟨fun _ _ => rfl, ⟨_, rfl, by decide⟩, ⟨_, rfl, by decide⟩⟩

theorem noCreate_getClient (configuration : Config) : (getClient configuration).noCreate :=
  fun s => ⟨[], by simp [getClient, Result.state], rfl⟩

theorem noCreate_returnError (e : GoError) :
    (do mutex.Unlock; pure (some e) : M (Option GoError)).noCreate :=
  noCreate_bind _ _ noCreate_Unlock (fun _ => noCreate_pure _)

theorem noCreate_resourceIP4NetworkRead (h : Helpers) (configuration : Config)
    (hhelper : ∀ id cidr client, (h.getIP4NetworkAddressUsage id cidr client).noCreate) :
    (resourceIP4NetworkRead h configuration).noCreate := by
  unfold resourceIP4NetworkRead
  refine noCreate_bind _ _ noCreate_Lock (fun _ => ?_)
  refine noCreate_bind _ _ (noCreate_getClient _) (fun made => ?_)
  cases made with
  | error err => exact noCreate_returnError err
  | ok client =>
    refine noCreate_bind _ _ noCreate_getData (fun d => ?_)
    refine noCreate_bind _ _ (noCreate_LogoutClientIfError _ _ _) (fun err => ?_)
    cases err with
    | some e => exact noCreate_returnError e
    | none =>
      refine noCreate_bind _ _ (noCreate_GetEntityById _ _) (fun got => ?_)
      refine noCreate_bind _ _ (noCreate_LogoutClientIfError _ _ _) (fun err => ?_)
      cases err with
      | some e => exact noCreate_returnError e
      | none =>
        by_cases hid : got.1.Id = 0
        · simp only [hid, if_true]
          refine noCreate_bind _ _ (noCreate_SetId _) (fun _ => ?_)
          refine noCreate_bind _ _ (noCreate_Logout _) (fun err => ?_)
          cases err with
          | some e => exact noCreate_returnError e
          | none => exact noCreate_bind _ _ noCreate_Unlock (fun _ => noCreate_pure _)
        · simp only [hid, if_false]
          refine noCreate_bind _ _ (noCreate_Set _ _ _) (fun _ => ?_)
          refine noCreate_bind _ _ (noCreate_Set _ _ _) (fun _ => ?_)
          refine noCreate_bind _ _ (noCreate_Set _ _ _) (fun _ => ?_)
          refine noCreate_bind _ _ (noCreate_LogoutClientIfError _ _ _) (fun err => ?_)
          cases err with
          | some e => exact noCreate_returnError e
          | none =>
            iterate 11 refine noCreate_bind _ _ (noCreate_Set _ _ _) (fun _ => ?_)
            refine noCreate_bind _ _ (hhelper _ _ _) (fun usage => ?_)
            refine noCreate_bind _ _ (noCreate_LogoutClientIfError _ _ _) (fun err => ?_)
            cases err with
            | some e => exact noCreate_returnError e
            | none =>
              refine noCreate_bind _ _ (noCreate_Set _ _ _) (fun _ => ?_)
              refine noCreate_bind _ _ (noCreate_Set _ _ _) (fun _ => ?_)
              refine noCreate_bind _ _ (noCreate_Logout _) (fun err => ?_)
              cases err with
              | some e => exact noCreate_returnError e
              | none =>
                refine noCreate_bind _ _ (noCreate_logPrintf _) (fun _ => ?_)
                exact noCreate_bind _ _ noCreate_Unlock (fun _ => noCreate_pure _)

theorem sampleHelpers_noCreate (id : Int) (cidr : String) (c : ProteusAPI) :
    (sampleHelpers.getIP4NetworkAddressUsage id cidr c).noCreate := by
  show (Provider.getIP4NetworkAddressUsage sampleFloatLib id cidr c).noCreate
  unfold Provider.getIP4NetworkAddressUsage
  refine noCreate_bind _ _ (noCreate_index _ _) (fun mask => ?_)
  dsimp only
  split
  · exact noCreate_bind _ _ noCreate_Unlock (fun _ => noCreate_pure _)
  · refine noCreate_bind _ _ (noCreate_GetEntities _ _ _ _ _) (fun got => ?_)
    split
    · exact noCreate_pure _
    · exact noCreate_pure _

/-- C8 as stated fails for a configuration whose `parent_id` parses but whose
`Client()` returns an error: the handler unlocks and returns that error, and calls
`GetNextAvailableIP4Network` not once but never. -/
theorem create_without_client_makes_no_call :
    (strconv.ParseInt (resourceEntry.d.getString "parent_id")).2 = none ∧
      resourceIP4NetworkCreate sampleHelpers ⟨fun _ => .error (.remote "login failed")⟩
          resourceEntry =
        .ok (some (.remote "login failed")) { resourceEntry with trace := [.lock, .unlock] } ∧
      (resourceIP4NetworkCreate sampleHelpers ⟨fun _ => .error (.remote "login failed")⟩
          resourceEntry).state.trace.filter isGetNextAvailableIP4Network = [] := by
  decide

/-- C8, amended: let `resourceIP4NetworkCreate` start with the mutex free, and let the
helper `getIP4NetworkAddressUsage` of package `bluecat` make no call of
`GetNextAvailableIP4Network`.
* When `Client()` returns a client and `parent_id` parses as `parentID`, the events of the
  run are `Lock`, then the call `GetNextAvailableIP4Network(parentID, size,
  is_larger_allowed, true)`, then events among which there is no other such call; and when
  the call returns the id `id` without an error, the event after it is
  `SetId(FormatInt(id, 10))`.
* When `Client()` returns a client and `parent_id` does not parse, the handler logs out,
  unlocks and returns an error without that call.
* When `Client()` returns an error, the handler unlocks and returns it without that
  call. -/
theorem resourceIP4NetworkCreate_calls_once (h : Helpers) (configuration : Config) (s : State)
    (hfree : s.held = false)
    (hhelper : ∀ id cidr c, (h.getIP4NetworkAddressUsage id cidr c).noCreate) :
    (∀ client parentID, configuration.Client (s.trace ++ [.lock]) = .ok client →
        strconv.ParseInt (s.d.getString "parent_id") = (parentID, none) →
        ∃ rest,
          (resourceIP4NetworkCreate h configuration s).state.trace =
            s.trace ++ [.lock, .api (.GetNextAvailableIP4Network parentID (s.d.getInt "size")
              (s.d.getBool "is_larger_allowed") true)] ++ rest ∧
          rest.filter isGetNextAvailableIP4Network = [] ∧
          ∀ id, client.onGetNextAvailableIP4Network (s.trace ++ [.lock]) parentID
              (s.d.getInt "size") (s.d.getBool "is_larger_allowed") true = (id, none) →
            ∃ rest', rest = .setId (strconv.FormatInt id) :: rest') ∧
      (∀ client e, configuration.Client (s.trace ++ [.lock]) = .ok client →
        (strconv.ParseInt (s.d.getString "parent_id")).2 = some e →
        resourceIP4NetworkCreate h configuration s =
          .ok (some (.wrapped "Unable to convert parent_id from string to int64" e))
            { s with trace := s.trace ++ [.lock, .api .Logout, .unlock] }) ∧
      (∀ e, configuration.Client (s.trace ++ [.lock]) = .error e →
        resourceIP4NetworkCreate h configuration s =
          .ok (some e) { s with trace := s.trace ++ [.lock, .unlock] }) := by
  have hread := noCreate_resourceIP4NetworkRead h configuration hhelper
  refine ⟨?_, ?_, ?_⟩
  · intro client parentID hclient hparse
    cases hgot : client.onGetNextAvailableIP4Network (s.trace ++ [.lock]) parentID
        (s.d.getInt "size") (s.d.getBool "is_larger_allowed") true with
    | mk id err =>
      cases err with
      | some e =>
        refine ⟨[.api .Logout, .unlock], ?_, rfl, ?_⟩
        · simp [resourceIP4NetworkCreate, mutex.Lock, mutex.Unlock, hfree, getClient, hclient,
            getData, hparse, LogoutClientIfError, ProteusAPI.GetNextAvailableIP4Network,
            ProteusAPI.Logout, hgot, Result.state]
        · intro id' hid'
          simp at hid'
      | none =>
        cases hout : client.onLogout (s.trace ++ [.lock,
            .api (.GetNextAvailableIP4Network parentID (s.d.getInt "size")
              (s.d.getBool "is_larger_allowed") true),
            .setId (strconv.FormatInt id),
            .api (.Update ⟨id, s.d.getString "name", "IP4Network", ""⟩)]) with
        | some e =>
          refine ⟨[.setId (strconv.FormatInt id),
            .api (.Update ⟨id, s.d.getString "name", "IP4Network", ""⟩), .api .Logout,
            .unlock], ?_, rfl, ?_⟩
          · simp [resourceIP4NetworkCreate, mutex.Lock, mutex.Unlock, hfree, getClient, hclient,
              getData, hparse, LogoutClientIfError, ProteusAPI.GetNextAvailableIP4Network,
              ProteusAPI.Logout, ProteusAPI.Update, SetId, hgot, hout, Result.state]
          · intro id' hid'
            simp at hid'
            exact ⟨_, by rw [hid']⟩
        | none =>
          obtain ⟨added, htrace, hnone⟩ := hread
            { d := { s.d with id := strconv.FormatInt id }, held := false,
              trace := s.trace ++ [.lock,
                .api (.GetNextAvailableIP4Network parentID (s.d.getInt "size")
                  (s.d.getBool "is_larger_allowed") true),
                .setId (strconv.FormatInt id),
                .api (.Update ⟨id, s.d.getString "name", "IP4Network", ""⟩), .api .Logout,
                .log "[INFO] BlueCat Logout was successful", .unlock] }
          refine ⟨[.setId (strconv.FormatInt id),
            .api (.Update ⟨id, s.d.getString "name", "IP4Network", ""⟩), .api .Logout,
            .log "[INFO] BlueCat Logout was successful", .unlock] ++ added, ?_, ?_, ?_⟩
          · simp [resourceIP4NetworkCreate, mutex.Lock, mutex.Unlock, hfree, getClient, hclient,
              getData, hparse, LogoutClientIfError, ProteusAPI.GetNextAvailableIP4Network,
              ProteusAPI.Logout, ProteusAPI.Update, SetId, hgot, hout, logPrintf, emit]
            simpa using htrace
          · simp [List.filter_append, hnone, List.filter, isGetNextAvailableIP4Network]
          · intro id' hid'
            simp at hid'
            exact ⟨_, by rw [hid']; rfl⟩
  · intro client e hclient he
    simp [resourceIP4NetworkCreate, mutex.Lock, mutex.Unlock, hfree, getClient, hclient,
      getData, he, LogoutClientIfError, ProteusAPI.Logout]
  · intro e hclient
    simp [resourceIP4NetworkCreate, mutex.Lock, mutex.Unlock, hfree, getClient, hclient]

/-- C8, amended, at a configuration with `parent_id = "5"` and the sample server: the run
is `Lock`, the call `GetNextAvailableIP4Network(5, 256, false, true)`, `SetId("7")` and
events without another such call. -/
theorem resourceIP4NetworkCreate_calls_once_witness :
    resourceEntry.held = false ∧
      ∃ rest,
        (resourceIP4NetworkCreate sampleHelpers ⟨fun _ => .ok sampleClient⟩
            resourceEntry).state.trace =
          resourceEntry.trace ++ [.lock, .api (.GetNextAvailableIP4Network 5
            (resourceEntry.d.getInt "size") (resourceEntry.d.getBool "is_larger_allowed") true)]
            ++ rest ∧
        rest.filter isGetNextAvailableIP4Network = [] ∧
        ∀ id, sampleClient.onGetNextAvailableIP4Network (resourceEntry.trace ++ [.lock]) 5
            (resourceEntry.d.getInt "size") (resourceEntry.d.getBool "is_larger_allowed") true =
              (id, none) →
          ∃ rest', rest = .setId (strconv.FormatInt id) :: rest' :=
  ⟨rfl, (resourceIP4NetworkCreate_calls_once sampleHelpers ⟨fun _ => .ok sampleClient⟩
    resourceEntry rfl (fun id cidr c => sampleHelpers_noCreate id cidr c)).1 sampleClient 5 rfl
      (by decide)⟩

/-- C11: let `resourceIP4NetworkRead` start with the mutex free and obtain its client.
When the resource ID parses as `id` and `GetEntityById(id)` answers without an error with
an entity whose `Id` is 0, the run is exactly `Lock`, `GetEntityById(id)`, `SetId("")`,
`Logout`, `Unlock`: the resource ID becomes the empty string, no `Set` is executed and the
fields of the data are unchanged, there is no `GetEntities` call, the mutex is released
once and is free at the end, and the handler returns what `Logout` returned, nil or the
error of `Logout`. -/
theorem resourceIP4NetworkRead_vanished (h : Helpers) (configuration : Config)
    (client : ProteusAPI) (s : State) (id : Int) (resp : APIEntity)
    (hfree : s.held = false)
    (hclient : configuration.Client (s.trace ++ [.lock]) = .ok client)
    (hid : strconv.ParseInt s.d.id = (id, none))
    (hget : client.onGetEntityById (s.trace ++ [.lock]) id = (resp, none))
    (hzero : resp.Id = 0) :
    resourceIP4NetworkRead h configuration s =
        .ok (client.onLogout (s.trace ++ [.lock, .api (.GetEntityById id), .setId ""]))
          { d := { s.d with id := "" }, held := false,
            trace := s.trace ++
              [.lock, .api (.GetEntityById id), .setId "", .api .Logout, .unlock] } ∧
      (resourceIP4NetworkRead h configuration s).state.d.fields = s.d.fields := by
  have hrun : resourceIP4NetworkRead h configuration s =
      .ok (client.onLogout (s.trace ++ [.lock, .api (.GetEntityById id), .setId ""]))
        { d := { s.d with id := "" }, held := false,
          trace := s.trace ++
            [.lock, .api (.GetEntityById id), .setId "", .api .Logout, .unlock] } := by
    cases hout : client.onLogout (s.trace ++ [.lock, .api (.GetEntityById id), .setId ""]) with
    | none =>
      simp [resourceIP4NetworkRead, mutex.Lock, mutex.Unlock, hfree, getClient, hclient,
        getData, hid, LogoutClientIfError, ProteusAPI.GetEntityById, ProteusAPI.Logout, SetId,
        hget, hzero, hout]
    | some e =>
      simp [resourceIP4NetworkRead, mutex.Lock, mutex.Unlock, hfree, getClient, hclient,
        getData, hid, LogoutClientIfError, ProteusAPI.GetEntityById, ProteusAPI.Logout, SetId,
        hget, hzero, hout]
  exact ⟨hrun, by rw [hrun]; rfl⟩

/-- C11 for the network 7 on a server where it has vanished: the handler returns nil when
`Logout` succeeds and the error of `Logout` when it fails; in both runs the ID is emptied,
the fields stay and the mutex is released once. -/
theorem resourceIP4NetworkRead_vanished_witness :
    resourceIP4NetworkRead sampleHelpers ⟨fun _ => .ok vanishedClient⟩ resourceReadEntry =
        .ok none { resourceReadEntry with
          d := { resourceReadEntry.d with id := "" },
          trace := [.lock, .api (.GetEntityById 7), .setId "", .api .Logout, .unlock] } ∧
      resourceIP4NetworkRead sampleHelpers ⟨fun _ => .ok vanishedLogoutFailingClient⟩
          resourceReadEntry =
        .ok (some (.remote "logout failed")) { resourceReadEntry with
          d := { resourceReadEntry.d with id := "" },
          trace := [.lock, .api (.GetEntityById 7), .setId "", .api .Logout, .unlock] } :=
  ⟨(resourceIP4NetworkRead_vanished sampleHelpers ⟨fun _ => .ok vanishedClient⟩ vanishedClient
      resourceReadEntry 7 ⟨0, "", "", ""⟩ rfl rfl (by decide) rfl rfl).1,
    (resourceIP4NetworkRead_vanished sampleHelpers ⟨fun _ => .ok vanishedLogoutFailingClient⟩
      vanishedLogoutFailingClient resourceReadEntry 7 ⟨0, "", "", ""⟩ rfl rfl (by decide) rfl
      rfl).1⟩

end Legacy

end Bluecat
